import Mathlib

/-!
Shallow embedding of the fhir-demo-node pediatric-care CRUD service
(src/services, src/middleware) and proofs about its specification claims.

Modelling conventions, used consistently below:
* ISO-8601 date-time strings are modelled by their parsed timestamp in
  milliseconds since the epoch (an Int), which is how the code consumes them
  (Date.getTime, date-fns differenceInMinutes, comparisons).
* JS object stores (keyed by generated identifier) are association lists in
  insertion order; assigning an existing key overwrites in place, a new key
  appends, mirroring JS object key order.
* JS string truthiness (undefined and "" are falsy) is modelled explicitly.
* Fallible service methods return Except AppError; a thrown error leaves
  every store unchanged because the new store is only produced in the ok
  branch.
-/

set_option linter.unusedVariables false

/-! ## JS semantics helpers -/

/-- Truthiness of an optional JS string: undefined and the empty string are falsy. -/
def jsTruthy : Option String → Bool
  | none => false
  | some s => s ≠ ""

/-- The JS expression a || b for an optional string a and a string default b. -/
def jsOrStr (a : Option String) (b : String) : String :=
  match a with
  | some s => if s = "" then b else s
  | none => b

/-- The JS expression a || b where both sides are optional strings. -/
def jsOrOpt (a b : Option String) : Option String :=
  match a with
  | some s => if s = "" then b else some s
  | none => b

/-- Split a character list on a nonempty separator occurrence-by-occurrence
(the list-level semantics of String.prototype.split and String.splitOn).
Structural recursion on a fuel argument so the kernel can evaluate it; any
fuel at least the list's length gives the splitting. -/
def splitOnListFuel (sep : List Char) : Nat → List Char → List Char → List (List Char)
  | _, [], acc => [acc.reverse]
  | 0, l, acc => [acc.reverse ++ l]
  | fuel + 1, c :: rest, acc =>
    if sep.isPrefixOf (c :: rest) && !sep.isEmpty then
      acc.reverse :: splitOnListFuel sep fuel (rest.drop (sep.length - 1)) []
    else splitOnListFuel sep fuel rest (c :: acc)

/-- String splitting on a nonempty separator, via the character lists. -/
def strSplitOn (s sep : String) : List String :=
  (splitOnListFuel sep.data s.data.length s.data []).map List.asString

/-- Uppercasing via the character list (String.prototype.toUpperCase on the
ASCII strings this system handles). -/
def strToUpper (s : String) : String := (s.data.map Char.toUpper).asString

/-- Prefix test via the character lists (String.prototype.startsWith). -/
def strStartsWith (s pre : String) : Bool := pre.data.isPrefixOf s.data

/-- Whitespace trimming via the character lists (String.prototype.trim). -/
def strTrim (s : String) : String :=
  (((s.data.dropWhile Char.isWhitespace).reverse.dropWhile Char.isWhitespace).reverse).asString

/-- JS String.prototype.replace with a plain-string pattern: replaces the
first occurrence only. -/
def jsReplaceOnce (s pat rep : String) : String :=
  match strSplitOn s pat with
  | [] => s
  | [_] => s
  | x :: rest => x ++ rep ++ String.intercalate pat rest

/-- JS String.prototype.includes for a nonempty search string, via splitOn:
the pattern occurs iff splitting produces at least two parts. -/
def jsIncludes (s sub : String) : Bool :=
  (strSplitOn s sub).length != 1

/-! ## In-memory keyed stores (JS objects keyed by generated id) -/

/-- A JS-object-like store: key-value pairs in insertion order. -/
abbrev Store (α : Type) : Type := List (String × α)

/-- Reading store[id]. -/
def storeGet {α : Type} (s : Store α) (id : String) : Option α :=
  (s.find? (fun p => p.1 == id)).map (fun p => p.2)

/-- Whether the key is present. -/
def storeHas {α : Type} (s : Store α) (id : String) : Bool :=
  (storeGet s id).isSome

/-- Assignment store[id] = v: overwrite in place when the key exists,
append otherwise (JS object key-order semantics). -/
def storeSet {α : Type} (s : Store α) (id : String) (v : α) : Store α :=
  if storeHas s id then s.map (fun p => if p.1 == id then (id, v) else p)
  else s ++ [(id, v)]

/-- Deletion delete store[id]. -/
def storeDel {α : Type} (s : Store α) (id : String) : Store α :=
  s.filter (fun p => !(p.1 == id))

/-- Object.values of the store. -/
def storeValues {α : Type} (s : Store α) : List α :=
  s.map (fun p => p.2)

/-! ## Decimal strings: Number.prototype.toString and parseInt

The services persist meta.versionId as a decimal string and bump it with
(parseInt(versionId || '1') + 1).toString(). toString on a Nat is Nat.repr;
parseInt is modelled as the longest leading run of decimal digits (NaN, i.e.
none, when there is no digit). -/

/-- Numeric value of a decimal digit character. -/
def digitVal (c : Char) : Nat := c.toNat - 48

/-- Accumulate decimal digits most-significant first. -/
def parseDigitsAcc : Nat → List Char → Nat
  | a, [] => a
  | a, c :: cs => parseDigitsAcc (a * 10 + digitVal c) cs

/-- Model of JS parseInt on base-10 input: value of the longest leading digit
run, none (NaN) when the string does not start with a digit. -/
def jsParseInt (s : String) : Option Nat :=
  match s.data.takeWhile Char.isDigit with
  | [] => none
  | ds => some (parseDigitsAcc 0 ds)

/-- The versionId bump (parseInt(versionId || '1') + 1).toString() shared by
all three services' update methods. -/
def bumpVersionId (v : String) : String :=
  match jsParseInt (jsOrStr (some v) "1") with
  | some n => Nat.repr (n + 1)
  | none => "NaN"

/-- Number of factors of ten in the decimal representation, as a power of ten. -/
def decPow (n : Nat) : Nat :=
  if n < 10 then 10 else 10 * decPow (n / 10)
termination_by n
decreasing_by exact Nat.div_lt_self (by omega) (by omega)

/-! ## Timestamp arithmetic -/

/-- Milliseconds in 30.44 days, the month length used by the age bucket:
1000 * 60 * 60 * 24 * 30.44. -/
def msPerAgeMonth : Int := 2630016000

/-- Math.floor((now - birth) / (1000 * 60 * 60 * 24 * 30.44)), as in
getReferenceRangeForVitalSign. Math.floor rounds toward minus infinity. -/
def ageInMonths (nowMs birthMs : Int) : Int :=
  Int.fdiv (nowMs - birthMs) msPerAgeMonth

/-- date-fns differenceInMinutes: the number of full minutes between the two
instants, rounded toward zero. -/
def differenceInMinutes (endMs startMs : Int) : Int :=
  Int.tdiv (endMs - startMs) 60000

/-- Day-number to civil (year, month, day) conversion (proleptic Gregorian,
Howard Hinnant's civil_from_days), used to model date-fns calendar math. -/
def civilFromDays (z0 : Int) : Int × Int × Int :=
  let z := z0 + 719468
  let era := Int.fdiv z 146097
  let doe := z - era * 146097
  let yoe := Int.fdiv (doe - Int.fdiv doe 1460 + Int.fdiv doe 36524 - Int.fdiv doe 146096) 365
  let y := yoe + era * 400
  let doy := doe - (365 * yoe + Int.fdiv yoe 4 - Int.fdiv yoe 100)
  let mp := Int.fdiv (5 * doy + 2) 153
  let d := doy - Int.fdiv (153 * mp + 2) 5 + 1
  let m := mp + (if mp < 10 then 3 else -9)
  (y + (if m ≤ 2 then 1 else 0), m, d)

/-- Calendar year of a timestamp. -/
def dateYear (ms : Int) : Int := (civilFromDays (Int.fdiv ms 86400000)).1

/-- Position within the calendar year: (month, day, millisecond of day). -/
def monthDayTime (ms : Int) : Int × Int × Int :=
  let c := civilFromDays (Int.fdiv ms 86400000)
  (c.2.1, c.2.2, ms - 86400000 * Int.fdiv ms 86400000)

/-- Lexicographic comparison of positions within a year, as compareAsc does
after both dates are moved into the same (leap) year. -/
def mdtLt (a b : Int × Int × Int) : Bool :=
  a.1 < b.1 || (a.1 == b.1 && (a.2.1 < b.2.1 || (a.2.1 == b.2.1 && a.2.2 < b.2.2)))

/-- date-fns differenceInYears: signed count of full calendar years between
the instants (calendar-year difference, minus one when the last year is not
complete). -/
def differenceInYears (leftMs rightMs : Int) : Int :=
  let sign : Int := if rightMs < leftMs then 1 else if leftMs < rightMs then -1 else 0
  let difference := |dateYear leftMs - dateYear rightMs|
  let cmp : Int :=
    if mdtLt (monthDayTime leftMs) (monthDayTime rightMs) then -1
    else if mdtLt (monthDayTime rightMs) (monthDayTime leftMs) then 1 else 0
  let isLastYearNotFull := cmp = -sign && sign ≠ 0
  sign * (difference - (if isLastYearNotFull then 1 else 0))

/-! ## Shared FHIR data shapes -/

/-- An application error carrying an HTTP status code (middleware AppError). -/
structure AppError where
  message : String
  statusCode : Nat
deriving DecidableEq

structure Coding where
  system : Option String
  code : Option String
  display : Option String
deriving DecidableEq

structure CodeableConcept where
  coding : List Coding
  text : Option String
deriving DecidableEq

structure Quantity where
  value : ℚ
  unit : Option String
  system : Option String
  code : Option String
deriving DecidableEq

structure ReferenceRangeEntry where
  low : Option Quantity
  high : Option Quantity
  type : CodeableConcept
deriving DecidableEq

/-- Resource meta; every constructor in the services populates all three
fields, so they are not optional in the model. -/
structure ResourceMeta where
  versionId : String
  lastUpdated : Int
  profile : List String
deriving DecidableEq

structure SubjectRef where
  reference : String
  display : Option String
deriving DecidableEq

structure NoteEntry where
  text : String
  time : Option Int
deriving DecidableEq

structure Identifier where
  use : String
  type : Option CodeableConcept
  system : String
  value : String
deriving DecidableEq

structure HumanName where
  use : Option String
  family : String
  given : List String
deriving DecidableEq

structure ContactPoint where
  system : String
  value : String
  use : String
deriving DecidableEq

structure Address where
  use : String
  type : String
  line : List String
  city : String
  state : String
  postalCode : String
  country : String
deriving DecidableEq

structure Extension where
  url : String
  valueCode : Option String
  valueString : Option String
deriving DecidableEq

structure PatientContact where
  relationship : List CodeableConcept
  name : HumanName
  telecom : List ContactPoint
deriving DecidableEq

/-- A JS value that an observation may carry (number, string or boolean). -/
inductive JSValue where
  | num (q : ℚ)
  | str (s : String)
  | bool (b : Bool)
deriving DecidableEq

/-! ## Patient service (src/services/patientService.ts) -/

/-- A stored FHIR patient (PediatricPatient), restricted to the fields the
services construct and read. -/
structure PediatricPatient where
  id : String
  meta : ResourceMeta
  identifier : List Identifier
  active : Bool
  name : List HumanName
  telecom : List ContactPoint
  gender : String
  birthDate : Option Int
  address : Option (List Address)
  contact : Option (List PatientContact)
  extension : List Extension
deriving DecidableEq

structure PatientAddressReq where
  line1 : String
  line2 : Option String
  city : String
  state : String
  postalCode : String
  country : Option String
deriving DecidableEq

structure EmergencyContactReq where
  name : String
  relationship : String
  phone : String
deriving DecidableEq

structure PatientCreateRequest where
  firstName : String
  lastName : String
  dateOfBirth : Int
  gender : String
  email : Option String
  phone : Option String
  address : Option PatientAddressReq
  emergencyContact : Option EmergencyContactReq
  careComplexity : Option String
  medicalRecordNumber : Option String
deriving DecidableEq

structure PatientUpdateRequest where
  firstName : Option String
  lastName : Option String
  email : Option String
  phone : Option String
  address : Option PatientAddressReq
  emergencyContact : Option EmergencyContactReq
  careComplexity : Option String
  active : Option Bool
deriving DecidableEq

def careComplexityUrl : String :=
  "http://example.org/fhir/StructureDefinition/pediatric-care-complexity"

def primaryCaregiverUrl : String :=
  "http://example.org/fhir/StructureDefinition/primary-caregiver"

/-- The FHIR address array built from an address request. -/
def buildAddress (a : PatientAddressReq) : List Address :=
  [{ use := "home"
     type := "both"
     line := a.line1 :: (match a.line2 with | some l2 => if l2 = "" then [] else [l2] | none => [])
     city := a.city
     state := a.state
     postalCode := a.postalCode
     country := jsOrStr a.country "US" }]

/-- The FHIR contact array built from an emergency-contact request:
family is name.split(' ').pop() and given is name.split(' ').slice(0, -1). -/
def buildEmergencyContact (e : EmergencyContactReq) : List PatientContact :=
  let parts := strSplitOn e.name " "
  [{ relationship := [{ coding := [{ system := some "http://terminology.hl7.org/CodeSystem/v2-0131"
                                     code := some "C"
                                     display := some e.relationship }]
                        text := none }]
     name := { use := none, family := jsOrStr parts.getLast? "", given := parts.dropLast }
     telecom := [{ system := "phone", value := e.phone, use := "home" }] }]

/-- createPatient's FHIR construction, as a function of the generated id and
the creation instant. -/
def buildPatient (r : PatientCreateRequest) (patientId : String) (nowMs : Int) : PediatricPatient :=
  { id := patientId
    meta := { versionId := "1"
              lastUpdated := nowMs
              profile := ["http://hl7.org/fhir/us/core/StructureDefinition/us-core-patient"] }
    identifier := [{ use := "usual"
                     type := some { coding := [{ system := some "http://terminology.hl7.org/CodeSystem/v2-0203"
                                                 code := some "MR"
                                                 display := some "Medical Record Number" }]
                                    text := none }
                     system := "http://example.org/fhir/sid/us-mrn"
                     value := jsOrStr r.medicalRecordNumber ("MRN-" ++ patientId.take 8) }]
    active := true
    name := [{ use := some "official", family := r.lastName, given := [r.firstName] }]
    telecom :=
      (if jsTruthy r.email then [{ system := "email", value := r.email.getD "", use := "home" }] else []) ++
      (if jsTruthy r.phone then [{ system := "phone", value := r.phone.getD "", use := "home" }] else [])
    gender := r.gender
    birthDate := some r.dateOfBirth
    address := r.address.map buildAddress
    contact := r.emergencyContact.map buildEmergencyContact
    extension :=
      [{ url := careComplexityUrl
         valueCode := some (jsOrStr r.careComplexity "low")
         valueString := none },
       { url := primaryCaregiverUrl
         valueCode := none
         valueString := some (jsOrStr (r.emergencyContact.map (fun e => e.name)) "Not specified") }] }

/-- Replace the first element satisfying the predicate (Array.prototype.find
followed by mutation of the found element). -/
def updateFirst {α : Type} (p : α → Bool) (f : α → α) : List α → List α
  | [] => []
  | x :: xs => if p x then f x :: xs else x :: updateFirst p f xs

/-- updatePatient's transformation of an existing stored patient. -/
def applyPatientUpdate (ex : PediatricPatient) (u : PatientUpdateRequest) (nowMs : Int) :
    PediatricPatient :=
  let base := { ex with
    meta := { versionId := bumpVersionId ex.meta.versionId
              lastUpdated := nowMs
              profile := ex.meta.profile } }
  let base := if jsTruthy u.firstName || jsTruthy u.lastName then
      { base with name := [{ use := some "official"
                             family := jsOrStr u.lastName (jsOrStr ((ex.name.head?).map (fun n => n.family)) "")
                             given := [jsOrStr u.firstName (jsOrStr ((ex.name.head?).bind (fun n => n.given.head?)) "")] }] }
    else base
  let base := if u.email.isSome || u.phone.isSome then
      { base with telecom :=
          (if jsTruthy u.email then [{ system := "email", value := u.email.getD "", use := "home" }]
           else ex.telecom.filter (fun t => !(t.system == "email"))) ++
          (if jsTruthy u.phone then [{ system := "phone", value := u.phone.getD "", use := "home" }]
           else ex.telecom.filter (fun t => !(t.system == "phone"))) }
    else base
  let base := match u.address with
    | some a => { base with address := some (buildAddress a) }
    | none => base
  if jsTruthy u.careComplexity then
    { base with extension :=
        (updateFirst (fun e => e.url == careComplexityUrl)
          (fun e => { e with valueCode := u.careComplexity }) base.extension) }
  else base

structure PatientAddressResp where
  line1 : String
  line2 : Option String
  city : String
  state : String
  postalCode : String
  country : String
deriving DecidableEq

structure EmergencyContactResp where
  name : String
  relationship : String
  phone : String
deriving DecidableEq

structure PatientResponse where
  id : String
  firstName : String
  lastName : String
  dateOfBirth : Option Int
  age : Int
  gender : String
  email : Option String
  phone : Option String
  address : Option PatientAddressResp
  emergencyContact : Option EmergencyContactResp
  careComplexity : String
  medicalRecordNumber : Option String
  active : Bool
  createdAt : Int
  updatedAt : Int
deriving DecidableEq

/-- Age as mapToPatientResponse computes it; every stored patient carries a
birthDate (creation always sets it and no update touches it), so the invalid
date NaN path of parseISO('') is unreachable and collapsed to 0. -/
def patientAge (birthDate : Option Int) (nowMs : Int) : Int :=
  match birthDate with
  | some b => differenceInYears nowMs b
  | none => 0

/-- mapToPatientResponse. -/
def mapToPatientResponse (p : PediatricPatient) (nowMs : Int) : PatientResponse :=
  { id := p.id
    firstName := jsOrStr ((p.name.head?).bind (fun n => n.given.head?)) ""
    lastName := jsOrStr ((p.name.head?).map (fun n => n.family)) ""
    dateOfBirth := p.birthDate
    age := patientAge p.birthDate nowMs
    gender := jsOrStr (some p.gender) "unknown"
    email := (p.telecom.find? (fun t => t.system == "email")).map (fun t => t.value)
    phone := (p.telecom.find? (fun t => t.system == "phone")).map (fun t => t.value)
    address := (p.address.bind (fun l => l.head?)).map (fun a =>
      { line1 := jsOrStr a.line.head? ""
        line2 := a.line.head?.bind (fun _ => a.line.tail.head?)
        city := jsOrStr (some a.city) ""
        state := jsOrStr (some a.state) ""
        postalCode := jsOrStr (some a.postalCode) ""
        country := jsOrStr (some a.country) "US" })
    emergencyContact := (p.contact.bind (fun l => l.head?)).map (fun c =>
      { name := strTrim (jsOrStr (some (String.intercalate " " c.name.given)) "" ++ " " ++
                 jsOrStr (some c.name.family) "")
        relationship := jsOrStr ((c.relationship.head?).bind (fun cc => cc.coding.head?.bind (fun co => co.display))) ""
        phone := jsOrStr ((c.telecom.head?).map (fun t => t.value)) "" })
    careComplexity := jsOrStr ((p.extension.find? (fun e => e.url == careComplexityUrl)).bind (fun e => e.valueCode)) "low"
    medicalRecordNumber := (p.identifier.head?).map (fun i => i.value)
    active := p.active
    createdAt := p.meta.lastUpdated
    updatedAt := p.meta.lastUpdated }

abbrev PatientStore := Store PediatricPatient

/-- createPatient: build, store under the generated id, return the response. -/
def createPatient (patients : PatientStore) (r : PatientCreateRequest)
    (patientId : String) (nowMs : Int) : PatientStore × PatientResponse :=
  let p := buildPatient r patientId nowMs
  (storeSet patients patientId p, mapToPatientResponse p nowMs)

/-- getPatientById: 404 when absent. -/
def getPatientById (patients : PatientStore) (patientId : String) (nowMs : Int) :
    Except AppError PatientResponse :=
  match storeGet patients patientId with
  | none => .error { message := "Patient not found", statusCode := 404 }
  | some p => .ok (mapToPatientResponse p nowMs)

/-- updatePatient: 404 when absent, otherwise store and return the update. -/
def updatePatient (patients : PatientStore) (patientId : String)
    (u : PatientUpdateRequest) (nowMs : Int) :
    Except AppError (PatientStore × PatientResponse) :=
  match storeGet patients patientId with
  | none => .error { message := "Patient not found", statusCode := 404 }
  | some ex =>
    let p := applyPatientUpdate ex u nowMs
    .ok (storeSet patients patientId p, mapToPatientResponse p nowMs)

/-- deletePatient: 404 when absent. -/
def deletePatient (patients : PatientStore) (patientId : String) :
    Except AppError PatientStore :=
  match storeGet patients patientId with
  | none => .error { message := "Patient not found", statusCode := 404 }
  | some _ => .ok (storeDel patients patientId)

/-- getFHIRPatient: the raw stored resource, 404 when absent. -/
def getFHIRPatient (patients : PatientStore) (patientId : String) :
    Except AppError PediatricPatient :=
  match storeGet patients patientId with
  | none => .error { message := "Patient not found", statusCode := 404 }
  | some p => .ok p

/-! ## Observation service (src/services/observationService.ts) -/

/-- A stored FHIR observation, restricted to the fields the service
constructs and reads. -/
structure FHIRObservation where
  id : String
  meta : ResourceMeta
  status : String
  category : List CodeableConcept
  code : CodeableConcept
  subject : SubjectRef
  effectiveDateTime : Int
  issued : Int
  performer : Option (List SubjectRef)
  valueQuantity : Option Quantity
  valueString : Option String
  valueBoolean : Option Bool
  interpretation : Option (List CodeableConcept)
  note : Option (List NoteEntry)
  referenceRange : Option (List ReferenceRangeEntry)
deriving DecidableEq

structure ObservationCreateRequest where
  patientId : String
  type : String
  code : String
  display : String
  value : Option JSValue
  unit : Option String
  status : String
  effectiveDateTime : Int
  performerId : Option String
  notes : Option String
  interpretation : Option String
deriving DecidableEq

/-- Partial ObservationCreateRequest accepted by updateObservation. -/
structure ObservationUpdateRequest where
  value : Option JSValue
  unit : Option String
  status : Option String
  notes : Option String
  interpretation : Option String
deriving DecidableEq

structure ObservationResponse where
  id : String
  patientId : String
  type : String
  code : String
  display : String
  value : Option JSValue
  unit : Option String
  status : String
  effectiveDateTime : Int
  performerId : Option String
  notes : Option String
  interpretation : Option String
  createdAt : Int
  updatedAt : Int
deriving DecidableEq

/-- The codes of the PEDIATRIC_VITAL_SIGNS lookup table (models/Observation). -/
def pediatricVitalSignCodes : List String :=
  ["8867-4", "9279-1", "8310-5", "8480-6", "8462-4", "2708-6", "29463-7", "8302-2", "9843-4"]

/-- getSystemForCode: LOINC when the code appears in the pediatric
vital-signs table, SNOMED otherwise. -/
def getSystemForCode (code : String) : String :=
  if pediatricVitalSignCodes.contains code then "http://loinc.org"
  else "http://snomed.info/sct"

/-- getProfileForObservationType. -/
def getProfileForObservationType (type : String) : List String :=
  if type = "vital-signs" then ["http://hl7.org/fhir/StructureDefinition/vitalsigns"]
  else if type = "laboratory" then ["http://hl7.org/fhir/us/core/StructureDefinition/us-core-observation-lab"]
  else ["http://hl7.org/fhir/StructureDefinition/Observation"]

def observationCategoryUrl : String :=
  "http://terminology.hl7.org/CodeSystem/observation-category"

/-- getCategoryForObservationType. -/
def getCategoryForObservationType (type : String) : List CodeableConcept :=
  if type = "vital-signs" then
    [{ coding := [{ system := some observationCategoryUrl, code := some "vital-signs", display := some "Vital Signs" }], text := none }]
  else if type = "laboratory" then
    [{ coding := [{ system := some observationCategoryUrl, code := some "laboratory", display := some "Laboratory" }], text := none }]
  else if type = "assessment" then
    [{ coding := [{ system := some observationCategoryUrl, code := some "assessment", display := some "Assessment" }], text := none }]
  else
    [{ coding := [{ system := some observationCategoryUrl, code := some "survey", display := some "Survey" }], text := none }]

/-- getInterpretationCode: lookup with default 'N'. -/
def getInterpretationCode (i : String) : String :=
  if i = "normal" then "N"
  else if i = "abnormal" then "A"
  else if i = "high" then "H"
  else if i = "low" then "L"
  else if i = "critical" then "AA"
  else "N"

/-- getObservationTypeFromCategory: category?.[0]?.coding?.[0]?.code || 'unknown'. -/
def getObservationTypeFromCategory (category : List CodeableConcept) : String :=
  jsOrStr ((category.head?).bind (fun cc => cc.coding.head?.bind (fun c => c.code))) "unknown"

/-- An entry of the inner pediatricRanges table: optional low and high plus
the unit. -/
structure VitalRange where
  low : Option ℚ
  high : Option ℚ
  unit : String
deriving DecidableEq

/-- The pediatricRanges lookup of getReferenceRangeForVitalSign: the range
function keyed by LOINC code, applied to the age in months. -/
def pediatricRangeFor (code : String) (age : Int) : Option VitalRange :=
  if code = "8867-4" then
    some (if age < 12 then { low := some 100, high := some 160, unit := "/min" }
      else if age < 24 then { low := some 90, high := some 150, unit := "/min" }
      else if age < 60 then { low := some 80, high := some 130, unit := "/min" }
      else if age < 120 then { low := some 70, high := some 110, unit := "/min" }
      else { low := some 60, high := some 100, unit := "/min" })
  else if code = "9279-1" then
    some (if age < 12 then { low := some 30, high := some 60, unit := "/min" }
      else if age < 24 then { low := some 24, high := some 40, unit := "/min" }
      else if age < 60 then { low := some 20, high := some 30, unit := "/min" }
      else { low := some 16, high := some 25, unit := "/min" })
  else if code = "8310-5" then
    some { low := some 36.1, high := some 37.2, unit := "Cel" }
  else none

def ucumUrl : String := "http://unitsofmeasure.org"

/-- Wrap one bound of a range as a quantity; range.low ? ... : undefined is
JS truthiness, so a zero bound would also be dropped. -/
def toRangeQuantity (v : Option ℚ) (unit : String) : Option Quantity :=
  match v with
  | none => none
  | some q => if q = 0 then none
    else some { value := q, unit := some unit, system := some ucumUrl, code := some unit }

/-- The type attached to every produced reference range. -/
def normalRangeType : CodeableConcept :=
  { coding := [{ system := some "http://terminology.hl7.org/CodeSystem/referencerange-meaning"
                 code := some "normal"
                 display := some "Normal Range" }]
    text := none }

/-- getReferenceRangeForVitalSign: age bucket lookup keyed by code; none when
the patient has no birthDate or the code has no range function. -/
def getReferenceRangeForVitalSign (code : String) (birthDate : Option Int) (nowMs : Int) :
    Option (List ReferenceRangeEntry) :=
  match birthDate with
  | none => none
  | some b =>
    match pediatricRangeFor code (ageInMonths nowMs b) with
    | none => none
    | some r =>
      some [{ low := toRangeQuantity r.low r.unit
              high := toRangeQuantity r.high r.unit
              type := normalRangeType }]

/-- Template-literal rendering of a possibly-undefined string. -/
def jsShowOpt (o : Option String) : String := o.getD "undefined"

/-- The subject display string of a created observation or appointment
participant. -/
def patientDisplay (p : PediatricPatient) : String :=
  jsShowOpt ((p.name.head?).bind (fun n => n.given.head?)) ++ " " ++
    jsShowOpt ((p.name.head?).map (fun n => n.family))

def v3InterpretationUrl : String :=
  "http://terminology.hl7.org/CodeSystem/v3-ObservationInterpretation"

/-- createObservation's FHIR construction, as a function of the looked-up
patient, the generated id and the creation instant. -/
def buildObservation (d : ObservationCreateRequest) (patient : PediatricPatient)
    (observationId : String) (nowMs : Int) : FHIRObservation :=
  { id := observationId
    meta := { versionId := "1"
              lastUpdated := nowMs
              profile := getProfileForObservationType d.type }
    status := d.status
    category := getCategoryForObservationType d.type
    code := { coding := [{ system := some (getSystemForCode d.code)
                           code := some d.code
                           display := some d.display }]
              text := some d.display }
    subject := { reference := "Patient/" ++ d.patientId
                 display := some (patientDisplay patient) }
    effectiveDateTime := d.effectiveDateTime
    issued := nowMs
    performer := if jsTruthy d.performerId then
        some [{ reference := "Practitioner/" ++ d.performerId.getD "", display := none }]
      else none
    valueQuantity := match d.value with
      | some (.num q) => some { value := q, unit := d.unit, system := some ucumUrl, code := d.unit }
      | _ => none
    valueString := match d.value with
      | some (.str s) => some s
      | _ => none
    valueBoolean := match d.value with
      | some (.bool b) => some b
      | _ => none
    interpretation := if jsTruthy d.interpretation then
        some [{ coding := [{ system := some v3InterpretationUrl
                             code := some (getInterpretationCode (d.interpretation.getD ""))
                             display := d.interpretation }]
                text := none }]
      else none
    note := if jsTruthy d.notes then some [{ text := d.notes.getD "", time := some nowMs }] else none
    referenceRange := getReferenceRangeForVitalSign d.code patient.birthDate nowMs }

/-- mapToObservationResponse. -/
def mapToObservationResponse (o : FHIRObservation) : ObservationResponse :=
  { id := o.id
    patientId := jsReplaceOnce o.subject.reference "Patient/" ""
    type := getObservationTypeFromCategory o.category
    code := jsOrStr ((o.code.coding.head?).bind (fun c => c.code)) ""
    display := jsOrStr o.code.text (jsOrStr ((o.code.coding.head?).bind (fun c => c.display)) "")
    value := match o.valueQuantity with
      | some q => some (.num q.value)
      | none => match o.valueString with
        | some s => some (.str s)
        | none => match o.valueBoolean with
          | some b => some (.bool b)
          | none => none
    unit := o.valueQuantity.bind (fun q => q.unit)
    status := o.status
    effectiveDateTime := o.effectiveDateTime
    performerId := (o.performer.bind (fun l => l.head?)).map (fun r => jsReplaceOnce r.reference "Practitioner/" "")
    notes := (o.note.bind (fun l => l.head?)).map (fun n => n.text)
    interpretation := (o.interpretation.bind (fun l => l.head?)).bind (fun cc => cc.coding.head?.bind (fun c => c.display))
    createdAt := o.meta.lastUpdated
    updatedAt := o.meta.lastUpdated }

abbrev ObservationStore := Store FHIRObservation

/-- createObservation: looks the patient up first; any thrown error (in
particular patient not found) is caught and rethrown as a 500. -/
def createObservation (patients : PatientStore) (observations : ObservationStore)
    (d : ObservationCreateRequest) (observationId : String) (nowMs : Int) :
    Except AppError (ObservationStore × ObservationResponse) :=
  match storeGet patients d.patientId with
  | none => .error { message := "Failed to create observation", statusCode := 500 }
  | some patient =>
    let obs := buildObservation d patient observationId nowMs
    .ok (storeSet observations observationId obs, mapToObservationResponse obs)

/-- getObservationById: 404 when absent. -/
def getObservationById (observations : ObservationStore) (observationId : String) :
    Except AppError ObservationResponse :=
  match storeGet observations observationId with
  | none => .error { message := "Observation not found", statusCode := 404 }
  | some o => .ok (mapToObservationResponse o)

/-- getObservationsByPatient: filter Object.values by subject reference and,
when a type is given (and truthy), by the category-derived type. -/
def getObservationsByPatient (observations : ObservationStore) (patientId : String)
    (type : Option String) : List ObservationResponse :=
  ((storeValues observations).filter (fun o =>
    (o.subject.reference == "Patient/" ++ patientId) &&
      (!(jsTruthy type) || (getObservationTypeFromCategory o.category == type.getD "")))).map
    mapToObservationResponse

/-- getVitalSignsForPatient. -/
def getVitalSignsForPatient (observations : ObservationStore) (patientId : String) :
    List ObservationResponse :=
  getObservationsByPatient observations patientId (some "vital-signs")

/-- One step of getLatestVitalSigns' accumulation: keep the incoming vital
when there is no entry for its code yet or it is strictly more recent. -/
def latestStep (m : Store ObservationResponse) (v : ObservationResponse) :
    Store ObservationResponse :=
  match storeGet m v.code with
  | none => storeSet m v.code v
  | some e => if e.effectiveDateTime < v.effectiveDateTime then storeSet m v.code v else m

/-- getLatestVitalSigns: latest observation per code among the patient's
vital signs. -/
def getLatestVitalSigns (observations : ObservationStore) (patientId : String) :
    Store ObservationResponse :=
  (getVitalSignsForPatient observations patientId).foldl latestStep []

/-- updateObservation's transformation of an existing stored observation. -/
def applyObservationUpdate (ex : FHIRObservation) (u : ObservationUpdateRequest)
    (nowMs : Int) : FHIRObservation :=
  let base := { ex with
    meta := { versionId := bumpVersionId ex.meta.versionId
              lastUpdated := nowMs
              profile := ex.meta.profile }
    status := jsOrStr u.status ex.status
    interpretation := if jsTruthy u.interpretation then
        some [{ coding := [{ system := some v3InterpretationUrl
                             code := some (getInterpretationCode (u.interpretation.getD ""))
                             display := u.interpretation }]
                text := none }]
      else ex.interpretation
    note := if jsTruthy u.notes then some [{ text := u.notes.getD "", time := some nowMs }] else ex.note }
  match u.value with
  | some (.num q) =>
    { base with valueQuantity := some { value := q
                                        unit := jsOrOpt u.unit (ex.valueQuantity.bind (fun v => v.unit))
                                        system := some ucumUrl
                                        code := jsOrOpt u.unit (ex.valueQuantity.bind (fun v => v.code)) } }
  | some (.str s) => { base with valueString := some s }
  | some (.bool b) => { base with valueBoolean := some b }
  | none => base

/-- updateObservation: 404 when absent, otherwise store and return it. -/
def updateObservation (observations : ObservationStore) (observationId : String)
    (u : ObservationUpdateRequest) (nowMs : Int) :
    Except AppError (ObservationStore × ObservationResponse) :=
  match storeGet observations observationId with
  | none => .error { message := "Observation not found", statusCode := 404 }
  | some ex =>
    let o := applyObservationUpdate ex u nowMs
    .ok (storeSet observations observationId o, mapToObservationResponse o)

/-- deleteObservation: 404 when absent. -/
def deleteObservation (observations : ObservationStore) (observationId : String) :
    Except AppError ObservationStore :=
  match storeGet observations observationId with
  | none => .error { message := "Observation not found", statusCode := 404 }
  | some _ => .ok (storeDel observations observationId)

/-! ## Appointment service (src/services/appointmentService.ts) -/

structure Participant where
  type : List CodeableConcept
  actor : SubjectRef
  required : String
  status : String
deriving DecidableEq

/-- A stored FHIR appointment, restricted to the fields the service
constructs and reads. The source's start and end fields are named startTime
and endTime because end is a Lean keyword. -/
structure FHIRAppointment where
  id : String
  meta : ResourceMeta
  identifier : List Identifier
  status : String
  cancelationReason : Option CodeableConcept
  serviceCategory : List CodeableConcept
  serviceType : List CodeableConcept
  specialty : Option (List CodeableConcept)
  appointmentType : CodeableConcept
  reasonCode : Option (List CodeableConcept)
  priority : Nat
  description : Option String
  startTime : Option Int
  endTime : Option Int
  minutesDuration : Option Int
  created : Int
  comment : Option String
  participant : List Participant
deriving DecidableEq

structure AppointmentCreateRequest where
  patientId : String
  providerId : Option String
  appointmentType : String
  specialty : Option String
  startDateTime : Int
  endDateTime : Int
  priority : String
  description : Option String
  reasonForVisit : Option String
  location : Option String
  telehealth : Bool
  notes : Option String
deriving DecidableEq

structure AppointmentUpdateRequest where
  status : Option String
  startDateTime : Option Int
  endDateTime : Option Int
  providerId : Option String
  location : Option String
  notes : Option String
  cancelationReason : Option String
deriving DecidableEq

structure AppointmentResponse where
  id : String
  patientId : String
  patientName : String
  providerId : Option String
  providerName : Option String
  appointmentType : String
  specialty : Option String
  status : String
  startDateTime : Option Int
  endDateTime : Option Int
  duration : Int
  priority : String
  description : Option String
  reasonForVisit : Option String
  location : Option String
  telehealth : Bool
  notes : Option String
  createdAt : Int
  updatedAt : Int
deriving DecidableEq

/-- The key transform TYPE.toUpperCase().replace('-', '_') used to index the
static lookup tables (JS replace substitutes the first hyphen only). -/
def upperKey (s : String) : String := jsReplaceOnce (strToUpper s) "-" "_"

/-- Display strings of PEDIATRIC_APPOINTMENT_TYPES (models/Appointment). -/
def pediatricAppointmentTypeDisplay (key : String) : Option String :=
  if key = "ROUTINE_CHECKUP" then some "Routine Pediatric Checkup"
  else if key = "FOLLOW_UP" then some "Follow-up Visit"
  else if key = "EMERGENCY" then some "Emergency Visit"
  else if key = "CONSULTATION" then some "Specialist Consultation"
  else if key = "THERAPY" then some "Therapy Session"
  else if key = "VACCINATION" then some "Vaccination Appointment"
  else none

/-- Display strings of PEDIATRIC_SPECIALTIES (models/Appointment). -/
def pediatricSpecialtyDisplay (key : String) : Option String :=
  if key = "PEDIATRICS" then some "General Pediatrics"
  else if key = "PEDIATRIC_CARDIOLOGY" then some "Pediatric Cardiology"
  else if key = "PEDIATRIC_NEUROLOGY" then some "Pediatric Neurology"
  else if key = "PEDIATRIC_PULMONOLOGY" then some "Pediatric Pulmonology"
  else if key = "CHILD_PSYCHIATRY" then some "Child and Adolescent Psychiatry"
  else if key = "PEDIATRIC_PHYSICAL_THERAPY" then some "Pediatric Physical Therapy"
  else none

/-- mapPriorityToCode: v2-0276 code per priority, default 'R'. -/
def mapPriorityToCode (priority : String) : String :=
  if priority = "routine" then "R"
  else if priority = "urgent" then "U"
  else if priority = "asap" then "A"
  else if priority = "stat" then "S"
  else "R"

/-- mapPriorityToNumber: numeric priority, default 5. -/
def mapPriorityToNumber (priority : String) : Nat :=
  if priority = "routine" then 5
  else if priority = "urgent" then 3
  else if priority = "asap" then 2
  else if priority = "stat" then 1
  else 5

/-- The reverse priority mapping applied in mapToAppointmentResponse,
default 'routine'. -/
def priorityCodeToName (code : String) : String :=
  if code = "R" then "routine"
  else if code = "U" then "urgent"
  else if code = "A" then "asap"
  else if code = "S" then "stat"
  else "routine"

def v2PriorityUrl : String := "http://terminology.hl7.org/CodeSystem/v2-0276"

def participationTypeUrl : String := "http://terminology.hl7.org/CodeSystem/v3-ParticipationType"

/-- createAppointment's FHIR construction, as a function of the looked-up
patient, the generated id and the creation instant. -/
def buildAppointment (r : AppointmentCreateRequest) (patient : PediatricPatient)
    (appointmentId : String) (nowMs : Int) : FHIRAppointment :=
  { id := appointmentId
    meta := { versionId := "1"
              lastUpdated := nowMs
              profile := ["http://hl7.org/fhir/StructureDefinition/Appointment"] }
    identifier := [{ use := "usual"
                     type := none
                     system := "http://example.org/fhir/sid/appointment-id"
                     value := "APT-" ++ appointmentId.take 8 }]
    status := "booked"
    cancelationReason := none
    serviceCategory := [{ coding := [{ system := some "http://terminology.hl7.org/CodeSystem/service-category"
                                       code := some "pediatric"
                                       display := some "Pediatric Care" }]
                          text := none }]
    serviceType := [{ coding := [{ system := some "http://example.org/fhir/CodeSystem/appointment-types"
                                   code := some r.appointmentType
                                   display := some (jsOrStr (pediatricAppointmentTypeDisplay (upperKey r.appointmentType)) r.appointmentType) }]
                      text := none }]
    specialty := r.specialty.map (fun s =>
      [{ coding := [{ system := some "http://snomed.info/sct"
                      code := some s
                      display := some (jsOrStr (pediatricSpecialtyDisplay (upperKey s)) s) }]
         text := none }])
    appointmentType := { coding := [{ system := some v2PriorityUrl
                                      code := some (mapPriorityToCode r.priority)
                                      display := some r.priority }]
                         text := none }
    reasonCode := if jsTruthy r.reasonForVisit then
        some [{ coding := [], text := r.reasonForVisit }]
      else none
    priority := mapPriorityToNumber r.priority
    description := r.description
    startTime := some r.startDateTime
    endTime := some r.endDateTime
    minutesDuration := some (differenceInMinutes r.endDateTime r.startDateTime)
    created := nowMs
    comment :=
      (fun joined => if joined = "" then none else some joined)
        (String.intercalate "; "
          ((if jsTruthy r.notes then [r.notes.getD ""] else []) ++
           (if r.telehealth then ["Telehealth appointment"] else []) ++
           (if jsTruthy r.location then ["Location: " ++ r.location.getD ""] else [])))
    participant :=
      { type := [{ coding := [{ system := some participationTypeUrl
                                code := some "PPRF"
                                display := some "primary performer" }]
                   text := none }]
        actor := { reference := "Patient/" ++ r.patientId
                   display := some (patientDisplay patient) }
        required := "required"
        status := "accepted" } ::
      (if jsTruthy r.providerId then
        [{ type := [{ coding := [{ system := some participationTypeUrl
                                   code := some "ATND"
                                   display := some "attender" }]
                      text := none }]
           actor := { reference := "Practitioner/" ++ r.providerId.getD ""
                      display := some "Healthcare Provider" }
           required := "required"
           status := "accepted" }]
      else []) }

/-- The Location capture of the comment regex match(/Location: ([^;]+)/):
text after the first occurrence of 'Location: ' up to the next semicolon,
none when empty. -/
def matchLocation (c : String) : Option String :=
  match strSplitOn c "Location: " with
  | _ :: r :: _ =>
    (fun cap => if cap = "" then none else some cap) (jsOrStr (strSplitOn r ";").head? "")
  | _ => none

/-- mapToAppointmentResponse. -/
def mapToAppointmentResponse (a : FHIRAppointment) : AppointmentResponse :=
  let patientParticipant := a.participant.find? (fun p => strStartsWith p.actor.reference "Patient/")
  let providerParticipant := a.participant.find? (fun p => strStartsWith p.actor.reference "Practitioner/")
  { id := a.id
    patientId := jsOrStr (patientParticipant.map (fun p => jsReplaceOnce p.actor.reference "Patient/" "")) ""
    patientName := jsOrStr (patientParticipant.bind (fun p => p.actor.display)) ""
    providerId := providerParticipant.map (fun p => jsReplaceOnce p.actor.reference "Practitioner/" "")
    providerName := providerParticipant.bind (fun p => p.actor.display)
    appointmentType := jsOrStr ((a.serviceType.head?).bind (fun cc => cc.coding.head?.bind (fun c => c.code))) ""
    specialty := a.specialty.bind (fun l => l.head?.bind (fun cc => cc.coding.head?.bind (fun c => c.code)))
    status := a.status
    startDateTime := a.startTime
    endDateTime := a.endTime
    duration := a.minutesDuration.getD 0
    priority := priorityCodeToName (jsOrStr ((a.appointmentType.coding.head?).bind (fun c => c.code)) "R")
    description := a.description
    reasonForVisit := (a.reasonCode.bind (fun l => l.head?)).bind (fun cc => cc.text)
    location := a.comment.bind matchLocation
    telehealth := match a.comment with
      | some c => jsIncludes c "Telehealth"
      | none => false
    notes := a.comment
    createdAt := a.created
    updatedAt := a.meta.lastUpdated }

abbrev AppointmentStore := Store FHIRAppointment

/-- createAppointment: looks the patient up first; any thrown error (in
particular patient not found) is caught and rethrown as a 500. -/
def createAppointment (patients : PatientStore) (appointments : AppointmentStore)
    (r : AppointmentCreateRequest) (appointmentId : String) (nowMs : Int) :
    Except AppError (AppointmentStore × AppointmentResponse) :=
  match storeGet patients r.patientId with
  | none => .error { message := "Failed to create appointment", statusCode := 500 }
  | some patient =>
    let apt := buildAppointment r patient appointmentId nowMs
    .ok (storeSet appointments appointmentId apt, mapToAppointmentResponse apt)

/-- getAppointmentById: 404 when absent. -/
def getAppointmentById (appointments : AppointmentStore) (appointmentId : String) :
    Except AppError AppointmentResponse :=
  match storeGet appointments appointmentId with
  | none => .error { message := "Appointment not found", statusCode := 404 }
  | some a => .ok (mapToAppointmentResponse a)

def cancellationReasonUrl : String :=
  "http://terminology.hl7.org/CodeSystem/appointment-cancellation-reason"

/-- updateAppointment's transformation of an existing stored appointment.
A duration is recomputed only when the update supplies a start or an end;
the getD 0 fallbacks model parseISO('') and are unreachable because every
stored appointment carries both instants. -/
def applyAppointmentUpdate (ex : FHIRAppointment) (u : AppointmentUpdateRequest)
    (nowMs : Int) : FHIRAppointment :=
  let duration := if u.startDateTime.isSome || u.endDateTime.isSome then
      some (differenceInMinutes ((u.endDateTime.orElse (fun _ => ex.endTime)).getD 0)
        ((u.startDateTime.orElse (fun _ => ex.startTime)).getD 0))
    else ex.minutesDuration
  { ex with
    meta := { versionId := bumpVersionId ex.meta.versionId
              lastUpdated := nowMs
              profile := ex.meta.profile }
    status := jsOrStr u.status ex.status
    startTime := u.startDateTime.orElse (fun _ => ex.startTime)
    endTime := u.endDateTime.orElse (fun _ => ex.endTime)
    minutesDuration := duration
    cancelationReason := if jsTruthy u.cancelationReason then
        some { coding := [{ system := some cancellationReasonUrl
                            code := some "pat"
                            display := u.cancelationReason }]
               text := none }
      else ex.cancelationReason
    comment :=
      (fun joined => if joined = "" then none else some joined)
        (String.intercalate "; "
          (([ex.comment, u.notes,
             if jsTruthy u.location then some ("Updated location: " ++ u.location.getD "") else none].filterMap id).filter
            (fun s => s ≠ "")))
    participant := if jsTruthy u.providerId then
        ex.participant.map (fun p =>
          if strStartsWith p.actor.reference "Practitioner/" then
            { p with actor := { p.actor with reference := "Practitioner/" ++ u.providerId.getD "" } }
          else p)
      else ex.participant }

/-- updateAppointment: 404 when absent, otherwise store and return it. -/
def updateAppointment (appointments : AppointmentStore) (appointmentId : String)
    (u : AppointmentUpdateRequest) (nowMs : Int) :
    Except AppError (AppointmentStore × AppointmentResponse) :=
  match storeGet appointments appointmentId with
  | none => .error { message := "Appointment not found", statusCode := 404 }
  | some ex =>
    let a := applyAppointmentUpdate ex u nowMs
    .ok (storeSet appointments appointmentId a, mapToAppointmentResponse a)

/-- cancelAppointment delegates to updateAppointment. -/
def cancelAppointment (appointments : AppointmentStore) (appointmentId : String)
    (reason : String) (nowMs : Int) :
    Except AppError (AppointmentStore × AppointmentResponse) :=
  updateAppointment appointments appointmentId
    { status := some "cancelled", startDateTime := none, endDateTime := none
      providerId := none, location := none, notes := none
      cancelationReason := some reason } nowMs

/-- checkInAppointment delegates to updateAppointment. -/
def checkInAppointment (appointments : AppointmentStore) (appointmentId : String)
    (nowMs : Int) : Except AppError (AppointmentStore × AppointmentResponse) :=
  updateAppointment appointments appointmentId
    { status := some "checked-in", startDateTime := none, endDateTime := none
      providerId := none, location := none, notes := none
      cancelationReason := none } nowMs

/-- completeAppointment delegates to updateAppointment. -/
def completeAppointment (appointments : AppointmentStore) (appointmentId : String)
    (notes : Option String) (nowMs : Int) :
    Except AppError (AppointmentStore × AppointmentResponse) :=
  updateAppointment appointments appointmentId
    { status := some "fulfilled", startDateTime := none, endDateTime := none
      providerId := none, location := none, notes := notes
      cancelationReason := none } nowMs

/-- deleteAppointment: 404 when absent. -/
def deleteAppointment (appointments : AppointmentStore) (appointmentId : String) :
    Except AppError AppointmentStore :=
  match storeGet appointments appointmentId with
  | none => .error { message := "Appointment not found", statusCode := 404 }
  | some _ => .ok (storeDel appointments appointmentId)

/-! ## Rate limiter (src/middleware/rateLimiter.ts) -/

structure RateLimitEntry where
  count : Nat
  resetTime : Int
deriving DecidableEq

abbrev RateLimitStore := Store RateLimitEntry

/-- MemoryRateLimitStore.increment: start a window of windowMs with count 1
when the key is absent or its window expired, otherwise increment the count
leaving the reset time untouched; returns the entry now stored. -/
def rlIncrement (store : RateLimitStore) (key : String) (windowMs nowMs : Int) :
    RateLimitStore × RateLimitEntry :=
  match storeGet store key with
  | some e =>
    if e.resetTime < nowMs then
      (storeSet store key { count := 1, resetTime := nowMs + windowMs },
       { count := 1, resetTime := nowMs + windowMs })
    else
      (storeSet store key { count := e.count + 1, resetTime := e.resetTime },
       { count := e.count + 1, resetTime := e.resetTime })
  | none =>
    (storeSet store key { count := 1, resetTime := nowMs + windowMs },
     { count := 1, resetTime := nowMs + windowMs })

/-- Whether the request was answered 429 (blocked, with Retry-After seconds)
or passed to the downstream handler. -/
inductive RateLimitOutcome where
  | blocked (retryAfter : Int)
  | allowed
deriving DecidableEq

def rateLimiterDefaultWindowMs : Int := 15 * 60 * 1000

def rateLimiterDefaultMax : Nat := 100

/-- Math.ceil(x / 1000). -/
def ceilDivThousand (x : Int) : Int := -(Int.fdiv (-x) 1000)

/-- One request through the rateLimiter middleware: key is req.ip or
'unknown', the counter is incremented, and the request is rejected with 429
exactly when the incremented count exceeds max (next() is not called then). -/
def rateLimiterStep (windowMs : Int) (maxRequests : Nat) (store : RateLimitStore)
    (ip : Option String) (nowMs : Int) : RateLimitStore × RateLimitOutcome :=
  let key := jsOrStr ip "unknown"
  let res := rlIncrement store key windowMs nowMs
  if res.2.count > maxRequests then
    (res.1, .blocked (ceilDivThousand (res.2.resetTime - nowMs)))
  else (res.1, .allowed)

/-! ## Data minimization (src/middleware/security.ts, dataMinimization) -/

/-- An object item of a response data payload, as the transform destructures
it: the six named fields plus the rest of the properties. -/
structure MinItem where
  id : Option String
  firstName : Option String
  lastName : Option String
  dateOfBirth : Option String
  gender : Option String
  careComplexity : Option String
  rest : List (String × String)
deriving DecidableEq

/-- An element of a data array: an object or a non-object value. -/
inductive DataEntry where
  | obj (item : MinItem)
  | nonObj (raw : String)
deriving DecidableEq

/-- A truthy data field: a plain object, an array, or a truthy non-object
primitive. -/
inductive DataField where
  | one (item : MinItem)
  | arr (items : List DataEntry)
  | prim (raw : String)
deriving DecidableEq

/-- A JSON response body: an optional (truthy) data field plus the other
top-level properties. -/
structure JsonBody where
  data : Option DataField
  rest : List (String × String)
deriving DecidableEq

/-- lastName ? lastName.charAt(0) + '*'.repeat(lastName.length - 1) : lastName. -/
def maskLastName (l : Option String) : Option String :=
  match l with
  | some s => if s = "" then some s
    else some (s.take 1 ++ (List.replicate (s.length - 1) '*').asString)
  | none => none

/-- dateOfBirth ? dateOfBirth.substring(0, 4) + '-**-**' : dateOfBirth. -/
def maskDateOfBirth (d : Option String) : Option String :=
  match d with
  | some s => if s = "" then some s else some (s.take 4 ++ "-**-**")
  | none => none

/-- Minimize one object item: mask lastName and dateOfBirth, keep the rest. -/
def minimizeItem (it : MinItem) : MinItem :=
  { it with lastName := maskLastName it.lastName, dateOfBirth := maskDateOfBirth it.dateOfBirth }

/-- Minimize one array element: non-objects pass through unchanged. -/
def minimizeEntry (e : DataEntry) : DataEntry :=
  match e with
  | .obj it => .obj (minimizeItem it)
  | .nonObj r => .nonObj r

/-- The dataMinimization res.json override: bodies whose data field is a
(truthy) object or array get their items minimized; everything else is
passed through unchanged. -/
def dataMinimization (body : JsonBody) : JsonBody :=
  match body.data with
  | none => body
  | some (.one it) => { body with data := some (.one (minimizeItem it)) }
  | some (.arr items) => { body with data := some (.arr (items.map minimizeEntry)) }
  | some (.prim r) => body

/-! ## Request validation (src/middleware/validation.ts) and the POST
/appointments route (src/routes/appointments.ts) -/

def isHexDigit (c : Char) : Bool :=
  c.isDigit || ('a' ≤ c && c ≤ 'f') || ('A' ≤ c && c ≤ 'F')

/-- Model of Joi string.uuid(): the hyphenated 8-4-4-4-12 hexadecimal form. -/
def isUuid (s : String) : Bool :=
  match strSplitOn s "-" with
  | [a, b, c, d, e] =>
    a.length == 8 && b.length == 4 && c.length == 4 && d.length == 4 && e.length == 12 &&
      (a ++ b ++ c ++ d ++ e).data.all isHexDigit
  | _ => false

/-- The raw POST /appointments body before Joi applies defaults. -/
structure AppointmentCreateBody where
  patientId : String
  providerId : Option String
  appointmentType : String
  specialty : Option String
  startDateTime : Int
  endDateTime : Int
  priority : Option String
  description : Option String
  reasonForVisit : Option String
  location : Option String
  telehealth : Option Bool
  notes : Option String
deriving DecidableEq

def appointmentTypeValues : List String :=
  ["routine-checkup", "follow-up", "emergency", "consultation", "therapy", "vaccination"]

def specialtyValues : List String :=
  ["pediatrics", "cardiology", "neurology", "pulmonology", "psychiatry", "physical-therapy"]

def priorityValues : List String := ["routine", "urgent", "asap", "stat"]

def optLenLe (o : Option String) (n : Nat) : Bool :=
  match o with
  | some s => s.length ≤ n
  | none => true

/-- The conjunction of appointmentValidationSchemas.create's constraints:
uuid shapes, enumerations, startDateTime at or after now (min('now')),
endDateTime strictly after startDateTime (greater(ref('startDateTime'))),
and the length bounds. -/
def appointmentCreateChecks (b : AppointmentCreateBody) (nowMs : Int) : Bool :=
  isUuid b.patientId &&
  (match b.providerId with | some p => isUuid p | none => true) &&
  appointmentTypeValues.contains b.appointmentType &&
  (match b.specialty with | some s => specialtyValues.contains s | none => true) &&
  (nowMs ≤ b.startDateTime) &&
  (b.startDateTime < b.endDateTime) &&
  (match b.priority with | some p => priorityValues.contains p | none => true) &&
  optLenLe b.description 500 &&
  optLenLe b.reasonForVisit 200 &&
  optLenLe b.location 100 &&
  optLenLe b.notes 1000

/-- Joi's defaults: priority 'routine' and telehealth false. -/
def applyAppointmentDefaults (b : AppointmentCreateBody) : AppointmentCreateRequest :=
  { patientId := b.patientId
    providerId := b.providerId
    appointmentType := b.appointmentType
    specialty := b.specialty
    startDateTime := b.startDateTime
    endDateTime := b.endDateTime
    priority := b.priority.getD "routine"
    description := b.description
    reasonForVisit := b.reasonForVisit
    location := b.location
    telehealth := b.telehealth.getD false
    notes := b.notes }

/-- validateBody(appointmentValidationSchemas.create): a 400 AppError when
any constraint fails, the defaulted value otherwise. -/
def validateAppointmentCreate (b : AppointmentCreateBody) (nowMs : Int) :
    Except AppError AppointmentCreateRequest :=
  if appointmentCreateChecks b nowMs then .ok (applyAppointmentDefaults b)
  else .error { message := "Validation error", statusCode := 400 }

/-- The POST /appointments route: validateBody then the service call; a
validation failure reaches the error handler and no appointment is created. -/
def postAppointment (patients : PatientStore) (appointments : AppointmentStore)
    (b : AppointmentCreateBody) (appointmentId : String) (nowMs : Int) :
    Except AppError (AppointmentStore × AppointmentResponse) :=
  match validateAppointmentCreate b nowMs with
  | .error e => .error e
  | .ok r => createAppointment patients appointments r appointmentId nowMs

/-! ## Whole-system state, for statements about which stores an operation
may touch -/

structure SystemState where
  patients : PatientStore
  observations : ObservationStore
  appointments : AppointmentStore
deriving DecidableEq

/-- updatePatient at the system level: the state is replaced only on ok. -/
def sysUpdatePatient (st : SystemState) (id : String) (u : PatientUpdateRequest)
    (nowMs : Int) : SystemState × Option AppError :=
  match updatePatient st.patients id u nowMs with
  | .ok (ps, _) => ({ st with patients := ps }, none)
  | .error e => (st, some e)

/-- deletePatient at the system level. -/
def sysDeletePatient (st : SystemState) (id : String) : SystemState × Option AppError :=
  match deletePatient st.patients id with
  | .ok ps => ({ st with patients := ps }, none)
  | .error e => (st, some e)

/-- updateObservation at the system level. -/
def sysUpdateObservation (st : SystemState) (id : String) (u : ObservationUpdateRequest)
    (nowMs : Int) : SystemState × Option AppError :=
  match updateObservation st.observations id u nowMs with
  | .ok (os, _) => ({ st with observations := os }, none)
  | .error e => (st, some e)

/-- deleteObservation at the system level. -/
def sysDeleteObservation (st : SystemState) (id : String) : SystemState × Option AppError :=
  match deleteObservation st.observations id with
  | .ok os => ({ st with observations := os }, none)
  | .error e => (st, some e)

/-- updateAppointment at the system level. -/
def sysUpdateAppointment (st : SystemState) (id : String) (u : AppointmentUpdateRequest)
    (nowMs : Int) : SystemState × Option AppError :=
  match updateAppointment st.appointments id u nowMs with
  | .ok (as, _) => ({ st with appointments := as }, none)
  | .error e => (st, some e)

/-- deleteAppointment at the system level. -/
def sysDeleteAppointment (st : SystemState) (id : String) : SystemState × Option AppError :=
  match deleteAppointment st.appointments id with
  | .ok as => ({ st with appointments := as }, none)
  | .error e => (st, some e)

/-! ## Operation traces over one resource store, for the versionId invariant -/

/-- The store-touching operations of one service, abstracted: a creation
carries the id and the already-assembled resource (none when the service
threw before storing, e.g. the referenced patient was missing), an update
carries the id and a transformation of the stored resource (the service's
update body applied at some instant), and a deletion carries the id. -/
inductive CrudOp (ρ : Type) where
  | create (id : String) (res : Option ρ)
  | update (id : String) (f : ρ → ρ)
  | delete (id : String)

/-- How each service realizes one operation on its store: failed creations
and operations on absent ids leave the store unchanged (the service throws). -/
def crudStep {ρ : Type} (s : Store ρ) : CrudOp ρ → Store ρ
  | .create id res =>
    match res with
    | some r => storeSet s id r
    | none => s
  | .update id f =>
    match storeGet s id with
    | some r => storeSet s id (f r)
    | none => s
  | .delete id =>
    match storeGet s id with
    | some _ => storeDel s id
    | none => s

/-- A trace run from the empty store the services start with. -/
def crudRun {ρ : Type} (ops : List (CrudOp ρ)) : Store ρ :=
  ops.foldl crudStep []

/-- Specification-side counter: the number of successful updates applied to
the id since its (latest) successful creation, none when the id is not live. -/
def crudCountStep {ρ : Type} (cnt : String → Option Nat) : CrudOp ρ → String → Option Nat
  | .create cid res, id =>
    if cid = id && (res.isSome : Bool) then some 0 else cnt id
  | .update uid _, id => if uid = id then (cnt id).map (fun k => k + 1) else cnt id
  | .delete did, id => if did = id then none else cnt id

/-- The update counter over a whole trace. -/
def crudCount {ρ : Type} (ops : List (CrudOp ρ)) : String → Option Nat :=
  ops.foldl crudCountStep (fun _ => none)

/-! ## Specification-side definitions

These are written from the specification/claim text (not from the source)
and are compared with the source-derived definitions above. -/

/-- Claim C1's bucket table, written from the claim text: for '8867-4'
ages below 12, 24, 60, 120 months give 100/160, 90/150, 80/130, 70/110 and
otherwise 60/100 per minute; for '9279-1' ages below 12, 24, 60 give 30/60,
24/40, 20/30 and otherwise 16/25 per minute; '8310-5' always gives
36.1/37.2 Cel; every other code has no range. -/
def specVitalRange (code : String) (age : Int) : Option VitalRange :=
  if code = "8867-4" then
    some (if age < 12 then { low := some 100, high := some 160, unit := "/min" }
      else if age < 24 then { low := some 90, high := some 150, unit := "/min" }
      else if age < 60 then { low := some 80, high := some 130, unit := "/min" }
      else if age < 120 then { low := some 70, high := some 110, unit := "/min" }
      else { low := some 60, high := some 100, unit := "/min" })
  else if code = "9279-1" then
    some (if age < 12 then { low := some 30, high := some 60, unit := "/min" }
      else if age < 24 then { low := some 24, high := some 40, unit := "/min" }
      else if age < 60 then { low := some 20, high := some 30, unit := "/min" }
      else { low := some 16, high := some 25, unit := "/min" })
  else if code = "8310-5" then
    some { low := some 36.1, high := some 37.2, unit := "Cel" }
  else none

/-- The attached reference range the claim describes: the bucket's bounds
wrapped as UCUM quantities with the bucket's unit. -/
def specReferenceRange (code : String) (age : Int) : Option (List ReferenceRangeEntry) :=
  (specVitalRange code age).map (fun r =>
    [{ low := r.low.map (fun q => { value := q, unit := some r.unit, system := some ucumUrl, code := some r.unit })
       high := r.high.map (fun q => { value := q, unit := some r.unit, system := some ucumUrl, code := some r.unit })
       type := normalRangeType }])

/-! ## Concrete demonstration inputs used by the witnesses -/

def demoPatientId : String := "11111111-1111-1111-1111-111111111111"

/-- Midnight UTC on 2020-01-01. -/
def demoBirthMs : Int := 1577836800000

/-- An instant in November 2023; the demo patient is then 46 age-months old. -/
def demoNowMs : Int := 1700000000000

def demoPatientReq : PatientCreateRequest :=
  { firstName := "Emma", lastName := "Watson", dateOfBirth := demoBirthMs
    gender := "female", email := none, phone := none, address := none
    emergencyContact := none, careComplexity := none, medicalRecordNumber := none }

def demoPatients : PatientStore :=
  (createPatient [] demoPatientReq demoPatientId demoNowMs).1

def demoObsReq : ObservationCreateRequest :=
  { patientId := demoPatientId, type := "vital-signs", code := "8867-4"
    display := "Heart rate", value := some (.num 120), unit := some "/min"
    status := "final", effectiveDateTime := demoNowMs, performerId := none
    notes := none, interpretation := none }

/-- The same request with a code outside every lookup table. -/
def demoObsReqOther : ObservationCreateRequest :=
  { demoObsReq with code := "X0000-0" }

def demoObsId : String := "22222222-2222-2222-2222-222222222222"

def demoApptId : String := "33333333-3333-3333-3333-333333333333"

def demoApptBody : AppointmentCreateBody :=
  { patientId := demoPatientId, providerId := none
    appointmentType := "routine-checkup", specialty := none
    startDateTime := demoNowMs + 3600000, endDateTime := demoNowMs + 5400000
    priority := some "urgent", description := none, reasonForVisit := none
    location := none, telehealth := none, notes := none }

/-- A body identical except that it ends at its start instant. -/
def demoApptBodyBad : AppointmentCreateBody :=
  { demoApptBody with endDateTime := demoApptBody.startDateTime }

def demoApptReq : AppointmentCreateRequest := applyAppointmentDefaults demoApptBody

/-- An update that does not touch the instants. -/
def demoApptUpdNone : AppointmentUpdateRequest :=
  { status := some "arrived", startDateTime := none, endDateTime := none
    providerId := none, location := none, notes := none, cancelationReason := none }

/-- An update that supplies only a new end instant. -/
def demoApptUpdEnd : AppointmentUpdateRequest :=
  { status := none, startDateTime := none, endDateTime := some (demoNowMs + 7200000)
    providerId := none, location := none, notes := none, cancelationReason := none }

def demoPatientUpd : PatientUpdateRequest :=
  { firstName := some "Mia", lastName := none, email := none, phone := none
    address := none, emergencyContact := none, careComplexity := none, active := none }

/-- The resource that trace leaves stored. -/
def demoStoredPatient : PediatricPatient :=
  applyPatientUpdate
    (applyPatientUpdate (buildPatient demoPatientReq demoPatientId demoNowMs)
      demoPatientUpd (demoNowMs + 1000))
    demoPatientUpd (demoNowMs + 2000)

/-- A data-minimization item whose dateOfBirth is present but empty. -/
def demoMinItemEmptyDob : MinItem :=
  { id := some "1", firstName := some "Ann", lastName := none
    dateOfBirth := some "", gender := some "female", careComplexity := some "low"
    rest := [] }

def demoMinItemFull : MinItem :=
  { id := some "2", firstName := some "Bob", lastName := some "Stone"
    dateOfBirth := some "2015-04-09", gender := some "male"
    careComplexity := some "high", rest := [("customField", "kept")] }

def demoPatient : PediatricPatient := buildPatient demoPatientReq demoPatientId demoNowMs

def demoObs : FHIRObservation := buildObservation demoObsReq demoPatient demoObsId demoNowMs

def demoApptStored : FHIRAppointment := buildAppointment demoApptReq demoPatient demoApptId demoNowMs

def demoAppts : AppointmentStore := [(demoApptId, demoApptStored)]

/-- An observation of the same code and patient, taken 500 ms later. -/
def demoObsReqLater : ObservationCreateRequest :=
  { demoObsReq with effectiveDateTime := demoNowMs + 500 }

def demoObsA : FHIRObservation := buildObservation demoObsReq demoPatient "o1" demoNowMs

def demoObsB : FHIRObservation := buildObservation demoObsReqLater demoPatient "o2" demoNowMs

def demoObsStore : ObservationStore := [("o1", demoObsA), ("o2", demoObsB)]

/-- The store-level operations of the patient service, interpreted into the
generic trace language with the service's own construction and update. -/
inductive PatientOp where
  | create (req : PatientCreateRequest) (id : String) (now : Int)
  | update (id : String) (u : PatientUpdateRequest) (now : Int)
  | delete (id : String)

def PatientOp.toCrud : PatientOp -> CrudOp PediatricPatient
  | .create req id now => .create id (some (buildPatient req id now))
  | .update id u now => .update id (fun p => applyPatientUpdate p u now)
  | .delete id => .delete id

def runPatientOps (ops : List PatientOp) : PatientStore := crudRun (ops.map PatientOp.toCrud)

def countPatientOps (ops : List PatientOp) : String -> Option Nat :=
  crudCount (ops.map PatientOp.toCrud)

/-- The store-level operations of the observation service; a creation
carries the result of the patient lookup (none models the caught 500). -/
inductive ObservationOp where
  | create (d : ObservationCreateRequest) (patient : Option PediatricPatient) (id : String) (now : Int)
  | update (id : String) (u : ObservationUpdateRequest) (now : Int)
  | delete (id : String)

def ObservationOp.toCrud : ObservationOp -> CrudOp FHIRObservation
  | .create d pOpt id now => .create id (pOpt.map (fun p => buildObservation d p id now))
  | .update id u now => .update id (fun o => applyObservationUpdate o u now)
  | .delete id => .delete id

def runObservationOps (ops : List ObservationOp) : ObservationStore :=
  crudRun (ops.map ObservationOp.toCrud)

def countObservationOps (ops : List ObservationOp) : String -> Option Nat :=
  crudCount (ops.map ObservationOp.toCrud)

/-- The store-level operations of the appointment service; cancel, check-in
and complete are the updateAppointment delegations with their fixed bodies. -/
inductive AppointmentOp where
  | create (r : AppointmentCreateRequest) (patient : Option PediatricPatient) (id : String) (now : Int)
  | update (id : String) (u : AppointmentUpdateRequest) (now : Int)
  | cancel (id : String) (reason : String) (now : Int)
  | checkin (id : String) (now : Int)
  | complete (id : String) (notes : Option String) (now : Int)
  | delete (id : String)

def AppointmentOp.toCrud : AppointmentOp -> CrudOp FHIRAppointment
  | .create r pOpt id now => .create id (pOpt.map (fun p => buildAppointment r p id now))
  | .update id u now => .update id (fun a => applyAppointmentUpdate a u now)
  | .cancel id reason now => .update id (fun a => applyAppointmentUpdate a
      { status := some "cancelled", startDateTime := none, endDateTime := none
        providerId := none, location := none, notes := none
        cancelationReason := some reason } now)
  | .checkin id now => .update id (fun a => applyAppointmentUpdate a
      { status := some "checked-in", startDateTime := none, endDateTime := none
        providerId := none, location := none, notes := none
        cancelationReason := none } now)
  | .complete id notes now => .update id (fun a => applyAppointmentUpdate a
      { status := some "fulfilled", startDateTime := none, endDateTime := none
        providerId := none, location := none, notes := notes
        cancelationReason := none } now)
  | .delete id => .delete id

def runAppointmentOps (ops : List AppointmentOp) : AppointmentStore :=
  crudRun (ops.map AppointmentOp.toCrud)

def countAppointmentOps (ops : List AppointmentOp) : String -> Option Nat :=
  crudCount (ops.map AppointmentOp.toCrud)

/-- A three-step patient trace: create then two updates. -/
def demoPatientOps : List PatientOp :=
  [.create demoPatientReq demoPatientId demoNowMs,
   .update demoPatientId demoPatientUpd (demoNowMs + 1000),
   .update demoPatientId demoPatientUpd (demoNowMs + 2000)]

/-! ## Helper lemmas about the store -/

theorem storeGet_nil {α : Type} (id : String) : storeGet ([] : Store α) id = none := rfl

theorem storeGet_cons {α : Type} (k : String) (v : α) (s : Store α) (id : String) :
    storeGet ((k, v) :: s) id = if k = id then some v else storeGet s id := by
  simp only [storeGet, List.find?_cons]
  by_cases h : k = id
  · simp [h]
  · have hb : (k == id) = false := by simp [h]
    simp [hb, h]

theorem storeGet_append {α : Type} (s t : Store α) (id : String) :
    storeGet (s ++ t) id = (storeGet s id).or (storeGet t id) := by
  simp only [storeGet, List.find?_append]
  cases List.find? (fun p => p.1 == id) s <;> simp

theorem storeHas_cons {α : Type} (k : String) (v : α) (s : Store α) (id : String) :
    storeHas ((k, v) :: s) id = (decide (k = id) || storeHas s id) := by
  simp only [storeHas, storeGet_cons]
  by_cases h : k = id <;> simp [h]

theorem storeGet_map_overwrite_self {α : Type} (s : Store α) (id : String) (v : α)
    (h : storeHas s id = true) :
    storeGet (s.map (fun p => if p.1 == id then (id, v) else p)) id = some v := by
  induction s with
  | nil => simp [storeHas, storeGet] at h
  | cons hd tl ih =>
    obtain ⟨k, w⟩ := hd
    by_cases hk : k = id
    · simp only [List.map_cons, hk]
      simp [storeGet_cons]
    · have h2 : storeHas tl id = true := by
        rw [storeHas_cons] at h
        simpa [hk] using h
      simp only [List.map_cons]
      rw [if_neg (by simp [hk])]
      rw [storeGet_cons, if_neg hk]
      exact ih h2

theorem storeGet_map_overwrite_ne {α : Type} (s : Store α) (id : String) (v : α)
    (idq : String) (h : idq ≠ id) :
    storeGet (s.map (fun p => if p.1 == id then (id, v) else p)) idq = storeGet s idq := by
  induction s with
  | nil => rfl
  | cons hd tl ih =>
    obtain ⟨k, w⟩ := hd
    simp only [List.map_cons]
    by_cases hk : k = id
    · subst hk
      rw [if_pos (by simp)]
      rw [storeGet_cons, storeGet_cons]
      rw [if_neg (fun hc => h hc.symm), if_neg (fun hc => h hc.symm)]
      exact ih
    · rw [if_neg (by simp [hk])]
      rw [storeGet_cons, storeGet_cons]
      by_cases hkq : k = idq
      · simp [hkq]
      · rw [if_neg hkq, if_neg hkq]
        exact ih

theorem storeGet_set_self {α : Type} (s : Store α) (id : String) (v : α) :
    storeGet (storeSet s id v) id = some v := by
  unfold storeSet
  by_cases h : storeHas s id
  · rw [if_pos h]
    exact storeGet_map_overwrite_self s id v h
  · rw [if_neg h]
    rw [storeGet_append]
    have hn : storeGet s id = none := by
      revert h
      simp only [storeHas]
      cases storeGet s id <;> simp
    rw [hn]
    simp [storeGet_cons]

theorem storeGet_set_ne {α : Type} (s : Store α) (id : String) (v : α)
    (idq : String) (h : idq ≠ id) :
    storeGet (storeSet s id v) idq = storeGet s idq := by
  unfold storeSet
  by_cases hh : storeHas s id
  · rw [if_pos hh]
    exact storeGet_map_overwrite_ne s id v idq h
  · rw [if_neg hh]
    rw [storeGet_append]
    rw [storeGet_cons, storeGet_nil, if_neg (fun hc => h hc.symm)]
    cases storeGet s idq <;> simp

theorem storeGet_del_self {α : Type} (s : Store α) (id : String) :
    storeGet (storeDel s id) id = none := by
  induction s with
  | nil => rfl
  | cons hd tl ih =>
    obtain ⟨k, w⟩ := hd
    unfold storeDel at ih ⊢
    by_cases hk : k = id
    · simp only [List.filter_cons]
      rw [if_neg (by simp [hk])]
      exact ih
    · simp only [List.filter_cons]
      rw [if_pos (by simp [hk])]
      rw [storeGet_cons, if_neg hk]
      exact ih

theorem storeGet_del_ne {α : Type} (s : Store α) (id idq : String) (h : idq ≠ id) :
    storeGet (storeDel s id) idq = storeGet s idq := by
  induction s with
  | nil => rfl
  | cons hd tl ih =>
    obtain ⟨k, w⟩ := hd
    unfold storeDel at ih ⊢
    by_cases hk : k = id
    · simp only [List.filter_cons]
      rw [if_neg (by simp [hk])]
      rw [storeGet_cons, if_neg (by rw [hk]; exact fun hc => h hc.symm)]
      exact ih
    · simp only [List.filter_cons]
      rw [if_pos (by simp [hk])]
      rw [storeGet_cons, storeGet_cons]
      by_cases hkq : k = idq
      · simp [hkq]
      · rw [if_neg hkq, if_neg hkq]
        exact ih

/-! ## Helper lemmas about decimal strings -/

theorem digitChar_isDigit (m : Nat) (h : m < 10) : (Nat.digitChar m).isDigit = true := by
  interval_cases m <;> decide

theorem digitVal_digitChar (m : Nat) (h : m < 10) : digitVal (Nat.digitChar m) = m := by
  interval_cases m <;> decide

theorem toDigitsCore_ne_nil (f n : Nat) (ds : List Char) (h : ds ≠ []) :
    Nat.toDigitsCore 10 f n ds ≠ [] := by
  induction f generalizing n ds with
  | zero => simpa [Nat.toDigitsCore] using h
  | succ f ih =>
    simp only [Nat.toDigitsCore]
    by_cases hz : n / 10 = 0
    · simp [hz]
    · rw [if_neg hz]
      exact ih _ _ (by simp)

theorem toDigits_ne_nil (n : Nat) : Nat.toDigits 10 n ≠ [] := by
  rw [Nat.toDigits]
  simp only [Nat.toDigitsCore]
  by_cases hz : n / 10 = 0
  · simp [hz]
  · rw [if_neg hz]
    exact toDigitsCore_ne_nil _ _ _ (by simp)

theorem toDigitsCore_all_digits (f n : Nat) (ds : List Char)
    (hds : ∀ c ∈ ds, c.isDigit = true) :
    ∀ c ∈ Nat.toDigitsCore 10 f n ds, c.isDigit = true := by
  induction f generalizing n ds with
  | zero => simpa [Nat.toDigitsCore] using hds
  | succ f ih =>
    simp only [Nat.toDigitsCore]
    by_cases hz : n / 10 = 0
    · rw [if_pos hz]
      intro c hc
      rcases List.mem_cons.mp hc with h1 | h2
      · rw [h1]
        exact digitChar_isDigit _ (Nat.mod_lt n (by omega))
      · exact hds c h2
    · rw [if_neg hz]
      refine ih (n / 10) (Nat.digitChar (n % 10) :: ds) ?_
      intro c hc
      rcases List.mem_cons.mp hc with h1 | h2
      · rw [h1]
        exact digitChar_isDigit _ (Nat.mod_lt n (by omega))
      · exact hds c h2

theorem parseDigitsAcc_nil (a : Nat) : parseDigitsAcc a [] = a := rfl

theorem parseDigitsAcc_cons (a : Nat) (c : Char) (cs : List Char) :
    parseDigitsAcc a (c :: cs) = parseDigitsAcc (a * 10 + digitVal c) cs := rfl

theorem parseDigitsAcc_toDigitsCore (f : Nat) : ∀ (n : Nat), n < f → ∀ (ds : List Char) (a : Nat),
    parseDigitsAcc a (Nat.toDigitsCore 10 f n ds) = parseDigitsAcc (a * decPow n + n) ds := by
  induction f with
  | zero => omega
  | succ f ih =>
    intro n hf ds a
    simp only [Nat.toDigitsCore]
    by_cases hz : n / 10 = 0
    · rw [if_pos hz]
      have hn : n < 10 := by omega
      rw [parseDigitsAcc_cons]
      rw [Nat.mod_eq_of_lt hn, digitVal_digitChar n hn]
      have hdp : decPow n = 10 := by
        rw [decPow]
        simp [hn]
      rw [hdp]
    · rw [if_neg hz]
      have hnz : 0 < n := by omega
      have h1 : n / 10 < f := by omega
      rw [ih (n / 10) h1]
      rw [parseDigitsAcc_cons]
      rw [digitVal_digitChar (n % 10) (Nat.mod_lt n (by omega))]
      have h10 : ¬n < 10 := by omega
      have hdp : decPow n = 10 * decPow (n / 10) := by
        rw [decPow]
        rw [if_neg h10]
      rw [hdp]
      have hdm := Nat.div_add_mod n 10
      calc parseDigitsAcc ((a * decPow (n / 10) + n / 10) * 10 + n % 10) ds
          = parseDigitsAcc (a * (10 * decPow (n / 10)) + (10 * (n / 10) + n % 10)) ds := by
            ring_nf
        _ = parseDigitsAcc (a * (10 * decPow (n / 10)) + n) ds := by rw [hdm]

theorem repr_data (n : Nat) : (Nat.repr n).data = Nat.toDigits 10 n := rfl

theorem jsParseInt_repr (n : Nat) : jsParseInt (Nat.repr n) = some n := by
  unfold jsParseInt
  rw [repr_data]
  have hdigits : ∀ c ∈ Nat.toDigits 10 n, c.isDigit = true :=
    toDigitsCore_all_digits (n + 1) n [] (by simp)
  have htw : (Nat.toDigits 10 n).takeWhile Char.isDigit = Nat.toDigits 10 n :=
    List.takeWhile_eq_self_iff.mpr hdigits
  rw [htw]
  have hval : parseDigitsAcc 0 (Nat.toDigits 10 n) = n := by
    rw [Nat.toDigits]
    rw [parseDigitsAcc_toDigitsCore (n + 1) n (Nat.lt_succ_self n) [] 0]
    rw [parseDigitsAcc_nil]
    omega
  cases hE : Nat.toDigits 10 n with
  | nil => exact absurd hE (toDigits_ne_nil n)
  | cons c cs =>
    rw [hE] at hval
    simp only []
    rw [hval]

theorem repr_ne_empty (n : Nat) : Nat.repr n ≠ "" := by
  intro h
  have hd : (Nat.repr n).data = [] := by rw [h]
  rw [repr_data] at hd
  exact toDigits_ne_nil n hd

theorem bumpVersionId_repr (n : Nat) : bumpVersionId (Nat.repr n) = Nat.repr (n + 1) := by
  unfold bumpVersionId
  have h1 : jsOrStr (some (Nat.repr n)) "1" = Nat.repr n := by
    simp [jsOrStr, repr_ne_empty n]
  rw [h1, jsParseInt_repr n]

/-! ## Claim C1 -/

theorem getRefRange_eq_spec (code : String) (b nowMs : Int) :
    getReferenceRangeForVitalSign code (some b) nowMs =
      specReferenceRange code (ageInMonths nowMs b) := by
  have h : getReferenceRangeForVitalSign code (some b) nowMs =
      (match pediatricRangeFor code (ageInMonths nowMs b) with
       | none => none
       | some r => some [{ low := toRangeQuantity r.low r.unit
                           high := toRangeQuantity r.high r.unit
                           type := normalRangeType }]) := rfl
  rw [h]
  generalize ageInMonths nowMs b = age
  unfold specReferenceRange pediatricRangeFor specVitalRange
  split_ifs <;> norm_num [toRangeQuantity]

/-- C1: every observation created for a stored patient attaches exactly the
reference range given by the specification's bucket table at the patient's
age in months (floor of elapsed milliseconds over 30.44 days), and no range
at all when the patient has no birthDate. -/
theorem claim_C1_reference_range (patients : PatientStore) (observations : ObservationStore)
    (d : ObservationCreateRequest) (observationId : String) (nowMs : Int)
    (p : PediatricPatient) (st : ObservationStore) (resp : ObservationResponse)
    (hp : storeGet patients d.patientId = some p)
    (hok : createObservation patients observations d observationId nowMs = .ok (st, resp)) :
    storeGet st observationId = some (buildObservation d p observationId nowMs) ∧
    (∀ b, p.birthDate = some b →
      (buildObservation d p observationId nowMs).referenceRange =
        specReferenceRange d.code (ageInMonths nowMs b)) ∧
    (p.birthDate = none →
      (buildObservation d p observationId nowMs).referenceRange = none) := by
  unfold createObservation at hok
  rw [hp] at hok
  simp only [Except.ok.injEq, Prod.mk.injEq] at hok
  obtain ⟨hst, hresp⟩ := hok
  refine ⟨?_, ?_, ?_⟩
  · rw [← hst]
    exact storeGet_set_self _ _ _
  · intro b hb
    show (buildObservation d p observationId nowMs).referenceRange = _
    simp only [buildObservation]
    rw [hb]
    exact getRefRange_eq_spec d.code b nowMs
  · intro hb
    simp only [buildObservation]
    rw [hb]
    rfl

theorem claim_C1_reference_range_witness :
    demoObs.referenceRange = specReferenceRange "8867-4" (ageInMonths demoNowMs demoBirthMs) :=
  (claim_C1_reference_range demoPatients [] demoObsReq demoObsId demoNowMs demoPatient
    (storeSet [] demoObsId demoObs) (mapToObservationResponse demoObs) rfl rfl).2.1
    demoBirthMs rfl

/-! ## Claim C2 -/

/-- C2: a successfully created appointment stores (and returns) the
whole-minute difference between end and start as its duration; an update
supplying a new start or end recomputes it against the existing record's
instants, and an update supplying neither leaves it unchanged. -/
theorem claim_C2_duration :
    (∀ (patients : PatientStore) (appointments : AppointmentStore)
       (r : AppointmentCreateRequest) (id : String) (nowMs : Int)
       (p : PediatricPatient) (st : AppointmentStore) (resp : AppointmentResponse),
      storeGet patients r.patientId = some p →
      createAppointment patients appointments r id nowMs = .ok (st, resp) →
      storeGet st id = some (buildAppointment r p id nowMs) ∧
      (buildAppointment r p id nowMs).minutesDuration =
        some (differenceInMinutes r.endDateTime r.startDateTime) ∧
      resp.duration = differenceInMinutes r.endDateTime r.startDateTime) ∧
    (∀ (appointments : AppointmentStore) (id : String) (u : AppointmentUpdateRequest)
       (nowMs : Int) (ex : FHIRAppointment) (st : AppointmentStore)
       (resp : AppointmentResponse) (s e : Int),
      storeGet appointments id = some ex →
      updateAppointment appointments id u nowMs = .ok (st, resp) →
      ex.startTime = some s → ex.endTime = some e →
      storeGet st id = some (applyAppointmentUpdate ex u nowMs) ∧
      ((u.startDateTime.isSome || u.endDateTime.isSome) = true →
        (applyAppointmentUpdate ex u nowMs).minutesDuration =
          some (differenceInMinutes (u.endDateTime.getD e) (u.startDateTime.getD s)) ∧
        resp.duration = differenceInMinutes (u.endDateTime.getD e) (u.startDateTime.getD s)) ∧
      (u.startDateTime = none → u.endDateTime = none →
        (applyAppointmentUpdate ex u nowMs).minutesDuration = ex.minutesDuration)) := by
  constructor
  · intro patients appointments r id nowMs p st resp hp hok
    unfold createAppointment at hok
    rw [hp] at hok
    simp only [Except.ok.injEq, Prod.mk.injEq] at hok
    obtain ⟨hst, hresp⟩ := hok
    refine ⟨?_, rfl, ?_⟩
    · rw [← hst]
      exact storeGet_set_self _ _ _
    · rw [← hresp]
      rfl
  · intro appointments id u nowMs ex st resp s e hex hok hs he
    unfold updateAppointment at hok
    rw [hex] at hok
    simp only [Except.ok.injEq, Prod.mk.injEq] at hok
    obtain ⟨hst, hresp⟩ := hok
    have hdur : (u.startDateTime.isSome || u.endDateTime.isSome) = true →
        (applyAppointmentUpdate ex u nowMs).minutesDuration =
          some (differenceInMinutes (u.endDateTime.getD e) (u.startDateTime.getD s)) := by
      intro hsome
      simp only [applyAppointmentUpdate, hsome, if_pos]
      rw [hs, he]
      cases u.startDateTime <;> cases u.endDateTime <;> simp [Option.orElse]
    refine ⟨?_, ?_, ?_⟩
    · rw [← hst]
      exact storeGet_set_self _ _ _
    · intro hsome
      refine ⟨hdur hsome, ?_⟩
      rw [← hresp]
      show (applyAppointmentUpdate ex u nowMs).minutesDuration.getD 0 = _
      rw [hdur hsome]
      rfl
    · intro hsn hen
      simp only [applyAppointmentUpdate, hsn, hen]
      rfl

theorem claim_C2_duration_witness :
    ((buildAppointment demoApptReq demoPatient demoApptId demoNowMs).minutesDuration =
      some (differenceInMinutes demoApptReq.endDateTime demoApptReq.startDateTime)) ∧
    ((applyAppointmentUpdate demoApptStored demoApptUpdEnd (demoNowMs + 9000)).minutesDuration =
      some (differenceInMinutes (demoApptUpdEnd.endDateTime.getD (demoNowMs + 5400000))
        (demoApptUpdEnd.startDateTime.getD (demoNowMs + 3600000)))) :=
  ⟨(claim_C2_duration.1 demoPatients [] demoApptReq demoApptId demoNowMs demoPatient
      (storeSet [] demoApptId demoApptStored) (mapToAppointmentResponse demoApptStored)
      rfl rfl).2.1,
   ((claim_C2_duration.2 demoAppts demoApptId demoApptUpdEnd (demoNowMs + 9000)
      demoApptStored
      (storeSet demoAppts demoApptId (applyAppointmentUpdate demoApptStored demoApptUpdEnd (demoNowMs + 9000)))
      (mapToAppointmentResponse (applyAppointmentUpdate demoApptStored demoApptUpdEnd (demoNowMs + 9000)))
      (demoNowMs + 3600000) (demoNowMs + 5400000) rfl rfl rfl rfl).2.1 rfl).1⟩

/-! ## Claim C3 -/

/-- C3: the rate limiter keeps a windowed counter per client key (the
request ip, or 'unknown'): a request for an absent key or one whose window
expired starts a fresh window with count 1; a request within a live window
increments the count without moving the reset time; the request is blocked
with 429 (and the downstream handler not invoked) exactly when the
incremented count exceeds max; entries of other keys are untouched; and the
defaults are fifteen minutes and 100 requests. -/
theorem claim_C3_rate_limiter (windowMs : Int) (maxRequests : Nat)
    (store : RateLimitStore) (ip : Option String) (nowMs : Int) :
    ((storeGet store (jsOrStr ip "unknown") = none ∨
      (∃ en, storeGet store (jsOrStr ip "unknown") = some en ∧ en.resetTime < nowMs)) →
      storeGet (rateLimiterStep windowMs maxRequests store ip nowMs).1 (jsOrStr ip "unknown") =
        some { count := 1, resetTime := nowMs + windowMs }) ∧
    (∀ en, storeGet store (jsOrStr ip "unknown") = some en → nowMs ≤ en.resetTime →
      storeGet (rateLimiterStep windowMs maxRequests store ip nowMs).1 (jsOrStr ip "unknown") =
        some { count := en.count + 1, resetTime := en.resetTime }) ∧
    ((rateLimiterStep windowMs maxRequests store ip nowMs).2 = .allowed ↔
      (rlIncrement store (jsOrStr ip "unknown") windowMs nowMs).2.count ≤ maxRequests) ∧
    (∀ k, k ≠ jsOrStr ip "unknown" →
      storeGet (rateLimiterStep windowMs maxRequests store ip nowMs).1 k = storeGet store k) ∧
    rateLimiterDefaultWindowMs = 15 * 60 * 1000 ∧ rateLimiterDefaultMax = 100 := by
  refine ⟨?_, ?_, ?_, ?_, rfl, rfl⟩
  · intro h
    simp only [rateLimiterStep, rlIncrement]
    rcases h with hn | ⟨en, hsome, hexp⟩
    · simp only [hn]
      split_ifs <;> exact storeGet_set_self _ _ _
    · simp only [hsome, hexp, if_true]
      split_ifs <;> exact storeGet_set_self _ _ _
  · intro en hsome hlive
    have hnlt : ¬(en.resetTime < nowMs) := by omega
    simp only [rateLimiterStep, rlIncrement, hsome, hnlt, if_false]
    split_ifs <;> exact storeGet_set_self _ _ _
  · simp only [rateLimiterStep, rlIncrement]
    split_ifs with h
    · constructor
      · intro hc
        exact absurd hc (by simp)
      · intro hc
        omega
    · constructor
      · intro _
        omega
      · intro _
        rfl
  · intro k hk
    simp only [rateLimiterStep, rlIncrement]
    cases hsome : storeGet store (jsOrStr ip "unknown") with
    | none => split_ifs <;> exact storeGet_set_ne _ _ _ _ hk
    | some en =>
      by_cases hrt : en.resetTime < nowMs
      · simp only [hrt, if_true]
        split_ifs <;> exact storeGet_set_ne _ _ _ _ hk
      · simp only [hrt, if_false]
        split_ifs <;> exact storeGet_set_ne _ _ _ _ hk

theorem claim_C3_rate_limiter_witness :
    storeGet (rateLimiterStep rateLimiterDefaultWindowMs rateLimiterDefaultMax []
      (some "10.0.0.1") 0).1 "10.0.0.1" =
      some { count := 1, resetTime := 0 + rateLimiterDefaultWindowMs } :=
  (claim_C3_rate_limiter rateLimiterDefaultWindowMs rateLimiterDefaultMax []
    (some "10.0.0.1") 0).1 (Or.inl rfl)

/-! ## Claim C4 -/

/-- C4: an appointment-creation body whose endDateTime is not strictly after
its startDateTime is rejected by validation with a 400 error (the service is
never reached and nothing is stored); when the end is strictly after the
start and the remaining body constraints hold, validation passes and the
service is invoked on the defaulted body. -/
theorem claim_C4_appointment_validation (patients : PatientStore)
    (appointments : AppointmentStore) (b : AppointmentCreateBody)
    (appointmentId : String) (nowMs : Int) :
    (¬(b.startDateTime < b.endDateTime) →
      postAppointment patients appointments b appointmentId nowMs =
        .error { message := "Validation error", statusCode := 400 }) ∧
    (appointmentCreateChecks b nowMs = true →
      postAppointment patients appointments b appointmentId nowMs =
        createAppointment patients appointments (applyAppointmentDefaults b)
          appointmentId nowMs) := by
  constructor
  · intro h
    unfold postAppointment validateAppointmentCreate
    have hd : decide (b.startDateTime < b.endDateTime) = false := by
      simpa using h
    have hc : appointmentCreateChecks b nowMs = false := by
      unfold appointmentCreateChecks
      simp [hd]
    rw [hc]
    rfl
  · intro h
    unfold postAppointment validateAppointmentCreate
    rw [h]
    rfl

theorem claim_C4_appointment_validation_witness :
    (postAppointment demoPatients [] demoApptBodyBad demoApptId demoNowMs =
      .error { message := "Validation error", statusCode := 400 }) ∧
    (postAppointment demoPatients [] demoApptBody demoApptId demoNowMs =
      createAppointment demoPatients [] (applyAppointmentDefaults demoApptBody)
        demoApptId demoNowMs) :=
  ⟨(claim_C4_appointment_validation demoPatients [] demoApptBodyBad demoApptId demoNowMs).1
      (by decide),
   (claim_C4_appointment_validation demoPatients [] demoApptBody demoApptId demoNowMs).2
      (by decide)⟩


/-! ## Claim C5 -/

theorem jsOrStr_some_empty (s : String) : jsOrStr (some s) "" = s := by
  by_cases h : s = "" <;> simp [jsOrStr, h]

/-- C5 counterexample: two observation-creation requests identical except
for the code yield stored observations whose coding system and attached
referenceRange both differ, so the stored observations do not differ only in
the code value and display text, and the system and referenceRange do
depend on the code supplied. -/
theorem claim_C5_counterexample :
    demoObsReqOther = { demoObsReq with code := "X0000-0" } ∧
    ((buildObservation demoObsReq demoPatient demoObsId demoNowMs).code.coding.head?.bind
        Coding.system = some "http://loinc.org") ∧
    ((buildObservation demoObsReqOther demoPatient demoObsId demoNowMs).code.coding.head?.bind
        Coding.system = some "http://snomed.info/sct") ∧
    (buildObservation demoObsReq demoPatient demoObsId demoNowMs).referenceRange ≠
      (buildObservation demoObsReqOther demoPatient demoObsId demoNowMs).referenceRange := by
  refine ⟨rfl, rfl, rfl, by decide⟩

/-- C5 amended: for two observation-creation requests identical except for
the code, the stored observations agree on every field other than the
code's coding entry (whose code is the request's code and whose system is
the pediatric-vital-signs table lookup) and the referenceRange (the
code-keyed age-bucket lookup); the returned responses differ only in the
code field. -/
theorem claim_C5_amended (d : ObservationCreateRequest) (c2 : String)
    (p : PediatricPatient) (id : String) (nowMs : Int) :
    (buildObservation d p id nowMs).meta = (buildObservation { d with code := c2 } p id nowMs).meta ∧
    (buildObservation d p id nowMs).status = (buildObservation { d with code := c2 } p id nowMs).status ∧
    (buildObservation d p id nowMs).category = (buildObservation { d with code := c2 } p id nowMs).category ∧
    (buildObservation d p id nowMs).subject = (buildObservation { d with code := c2 } p id nowMs).subject ∧
    (buildObservation d p id nowMs).effectiveDateTime = (buildObservation { d with code := c2 } p id nowMs).effectiveDateTime ∧
    (buildObservation d p id nowMs).issued = (buildObservation { d with code := c2 } p id nowMs).issued ∧
    (buildObservation d p id nowMs).performer = (buildObservation { d with code := c2 } p id nowMs).performer ∧
    (buildObservation d p id nowMs).valueQuantity = (buildObservation { d with code := c2 } p id nowMs).valueQuantity ∧
    (buildObservation d p id nowMs).valueString = (buildObservation { d with code := c2 } p id nowMs).valueString ∧
    (buildObservation d p id nowMs).valueBoolean = (buildObservation { d with code := c2 } p id nowMs).valueBoolean ∧
    (buildObservation d p id nowMs).interpretation = (buildObservation { d with code := c2 } p id nowMs).interpretation ∧
    (buildObservation d p id nowMs).note = (buildObservation { d with code := c2 } p id nowMs).note ∧
    (buildObservation d p id nowMs).code.text = (buildObservation { d with code := c2 } p id nowMs).code.text ∧
    (buildObservation d p id nowMs).code.coding =
      [{ system := some (getSystemForCode d.code), code := some d.code, display := some d.display }] ∧
    (buildObservation d p id nowMs).referenceRange =
      getReferenceRangeForVitalSign d.code p.birthDate nowMs ∧
    mapToObservationResponse (buildObservation d p id nowMs) =
      { mapToObservationResponse (buildObservation { d with code := c2 } p id nowMs) with
        code := d.code } := by
  refine ⟨rfl, rfl, rfl, rfl, rfl, rfl, rfl, rfl, rfl, rfl, rfl, rfl, rfl, rfl, rfl, ?_⟩
  simp only [mapToObservationResponse, buildObservation]
  simp only [List.head?, Option.bind]
  rw [jsOrStr_some_empty, jsOrStr_some_empty]

/-! ## Claim C6 -/

/-- C6: mapping a priority in the valid set to its v2-0276 code and back
yields the original priority, so a created appointment's response priority
equals the requested priority; priorities outside the set map to 'R' and
codes outside the set map back to 'routine'. -/
theorem claim_C6_priority_roundtrip :
    (∀ p, p ∈ priorityValues → priorityCodeToName (mapPriorityToCode p) = p) ∧
    (∀ p, p ∉ priorityValues → mapPriorityToCode p = "R") ∧
    (∀ c, c ∉ (["R", "U", "A", "S"] : List String) → priorityCodeToName c = "routine") ∧
    (∀ (patients : PatientStore) (appointments : AppointmentStore)
       (r : AppointmentCreateRequest) (id : String) (nowMs : Int)
       (pt : PediatricPatient) (st : AppointmentStore) (resp : AppointmentResponse),
      storeGet patients r.patientId = some pt →
      r.priority ∈ priorityValues →
      createAppointment patients appointments r id nowMs = .ok (st, resp) →
      resp.priority = r.priority) := by
  refine ⟨?_, ?_, ?_, ?_⟩
  · intro p hp
    simp only [priorityValues, List.mem_cons, List.mem_singleton, List.not_mem_nil] at hp
    rcases hp with rfl | rfl | rfl | rfl | h
    · rfl
    · rfl
    · rfl
    · rfl
    · cases h
  · intro p hp
    simp only [priorityValues, List.mem_cons, List.not_mem_nil, or_false, not_or] at hp
    obtain ⟨h1, h2, h3, h4⟩ := hp
    simp [mapPriorityToCode, h1, h2, h3, h4]
  · intro c hc
    simp only [List.mem_cons, List.not_mem_nil, or_false, not_or] at hc
    obtain ⟨h1, h2, h3, h4⟩ := hc
    simp [priorityCodeToName, h1, h2, h3, h4]
  · intro patients appointments r id nowMs pt st resp hp hpv hok
    unfold createAppointment at hok
    rw [hp] at hok
    simp only [Except.ok.injEq, Prod.mk.injEq] at hok
    obtain ⟨hst, hresp⟩ := hok
    rw [← hresp]
    show priorityCodeToName (jsOrStr (some (mapPriorityToCode r.priority)) "R") = r.priority
    simp only [priorityValues, List.mem_cons, List.mem_singleton, List.not_mem_nil] at hpv
    rcases hpv with h | h | h | h | h
    · rw [h]
      rfl
    · rw [h]
      rfl
    · rw [h]
      rfl
    · rw [h]
      rfl
    · cases h

theorem claim_C6_priority_roundtrip_witness :
    (priorityCodeToName (mapPriorityToCode "stat") = "stat") ∧
    ((mapToAppointmentResponse demoApptStored).priority = demoApptReq.priority) :=
  ⟨claim_C6_priority_roundtrip.1 "stat" (by decide),
   claim_C6_priority_roundtrip.2.2.2 demoPatients [] demoApptReq demoApptId demoNowMs
     demoPatient (storeSet [] demoApptId demoApptStored)
     (mapToAppointmentResponse demoApptStored) rfl (by decide) rfl⟩

/-! ## Claim C7 -/

/-- C7 counterexample: a body whose item carries an empty-string dateOfBirth
is passed through completely unchanged, while the claim's transform
prescribes replacing the dateOfBirth with its first four characters followed
by the masked suffix, which is a different value. -/
theorem claim_C7_counterexample :
    dataMinimization { data := some (.one demoMinItemEmptyDob), rest := [] } =
      { data := some (.one demoMinItemEmptyDob), rest := [] } ∧
    (minimizeItem demoMinItemEmptyDob).dateOfBirth = some "" ∧
    some "" ≠ some ((("" : String).take 4) ++ "-**-**") := by
  refine ⟨by decide, by decide, by decide⟩

/-- C7 amended: for bodies carrying a data object or array, each item's
nonempty lastName is replaced by its first character followed by one
asterisk per remaining character and each nonempty dateOfBirth by its first
four characters followed by '-**-**'; empty or absent lastName and
dateOfBirth values pass through unchanged, as does every other field of the
item, every non-object entry, the rest of the body, and any body without a
data field. -/
theorem claim_C7_amended (body : JsonBody) (it : MinItem) :
    (body.data = none → dataMinimization body = body) ∧
    ((dataMinimization body).rest = body.rest) ∧
    (∀ it0, body.data = some (.one it0) →
      (dataMinimization body).data = some (.one (minimizeItem it0))) ∧
    (∀ l, body.data = some (.arr l) →
      (dataMinimization body).data = some (.arr (l.map minimizeEntry))) ∧
    (∀ r, body.data = some (.prim r) → dataMinimization body = body) ∧
    (∀ r, minimizeEntry (.nonObj r) = .nonObj r) ∧
    ((minimizeItem it).id = it.id ∧ (minimizeItem it).firstName = it.firstName ∧
     (minimizeItem it).gender = it.gender ∧
     (minimizeItem it).careComplexity = it.careComplexity ∧
     (minimizeItem it).rest = it.rest) ∧
    (∀ s, it.lastName = some s → s ≠ "" →
      (minimizeItem it).lastName =
        some (s.take 1 ++ (List.replicate (s.length - 1) '*').asString)) ∧
    (it.lastName = some "" ∨ it.lastName = none →
      (minimizeItem it).lastName = it.lastName) ∧
    (∀ s, it.dateOfBirth = some s → s ≠ "" →
      (minimizeItem it).dateOfBirth = some (s.take 4 ++ "-**-**")) ∧
    (it.dateOfBirth = some "" ∨ it.dateOfBirth = none →
      (minimizeItem it).dateOfBirth = it.dateOfBirth) := by
  refine ⟨?_, ?_, ?_, ?_, ?_, fun r => rfl, ⟨rfl, rfl, rfl, rfl, rfl⟩, ?_, ?_, ?_, ?_⟩
  · intro h
    unfold dataMinimization
    rw [h]
  · unfold dataMinimization
    cases hd : body.data with
    | none => rfl
    | some df => cases df <;> rfl
  · intro it0 h
    unfold dataMinimization
    rw [h]
  · intro l h
    unfold dataMinimization
    rw [h]
  · intro r h
    unfold dataMinimization
    rw [h]
  · intro s hs hne
    simp [minimizeItem, maskLastName, hs, hne]
  · intro h
    rcases h with h | h <;> simp [minimizeItem, maskLastName, h]
  · intro s hs hne
    simp [minimizeItem, maskDateOfBirth, hs, hne]
  · intro h
    rcases h with h | h <;> simp [minimizeItem, maskDateOfBirth, h]

theorem claim_C7_amended_witness :
    (minimizeItem demoMinItemFull).lastName =
      some ("Stone".take 1 ++ (List.replicate ("Stone".length - 1) '*').asString) ∧
    (minimizeItem demoMinItemFull).dateOfBirth = some ("2015-04-09".take 4 ++ "-**-**") ∧
    (minimizeItem demoMinItemFull).rest = demoMinItemFull.rest :=
  ⟨(claim_C7_amended { data := none, rest := [] } demoMinItemFull).2.2.2.2.2.2.2.1 "Stone"
      rfl (by decide),
   (claim_C7_amended { data := none, rest := [] } demoMinItemFull).2.2.2.2.2.2.2.2.2.1
      "2015-04-09" rfl (by decide),
   (claim_C7_amended { data := none, rest := [] } demoMinItemFull).2.2.2.2.2.2.1.2.2.2.2⟩

/-! ## Claim C8 -/

theorem applyPatientUpdate_meta (ex : PediatricPatient) (u : PatientUpdateRequest) (t : Int) :
    (applyPatientUpdate ex u t).meta =
      { versionId := bumpVersionId ex.meta.versionId, lastUpdated := t
        profile := ex.meta.profile } := by
  simp only [applyPatientUpdate]
  cases u.address <;> split_ifs <;> rfl

theorem applyObservationUpdate_meta (ex : FHIRObservation) (u : ObservationUpdateRequest)
    (t : Int) :
    (applyObservationUpdate ex u t).meta =
      { versionId := bumpVersionId ex.meta.versionId, lastUpdated := t
        profile := ex.meta.profile } := by
  simp only [applyObservationUpdate]
  cases hv : u.value with
  | none => rfl
  | some v => cases v <;> rfl

theorem applyAppointmentUpdate_meta (ex : FHIRAppointment) (u : AppointmentUpdateRequest)
    (t : Int) :
    (applyAppointmentUpdate ex u t).meta =
      { versionId := bumpVersionId ex.meta.versionId, lastUpdated := t
        profile := ex.meta.profile } := rfl

/-- Generic invariant: running a trace of service operations from a store
whose entries already satisfy the versionId bookkeeping leaves every stored
resource's version string equal to one more than its successful-update
count, provided creations stamp "1" and updates bump with the shared
parseInt-increment-toString transform. -/
theorem crudRun_foldl_invariant {ρ : Type} (ver : ρ → String) :
    ∀ (ops : List (CrudOp ρ)),
      (∀ id r, CrudOp.create id (some r) ∈ ops → ver r = "1") →
      (∀ id f, CrudOp.update id f ∈ ops → ∀ r, ver (f r) = bumpVersionId (ver r)) →
      ∀ (s : Store ρ) (cnt : String → Option Nat),
        (∀ id r, storeGet s id = some r → ∃ k, cnt id = some k ∧ ver r = Nat.repr (k + 1)) →
        ∀ id r, storeGet (ops.foldl crudStep s) id = some r →
          ∃ k, (ops.foldl crudCountStep cnt) id = some k ∧ ver r = Nat.repr (k + 1) := by
  intro ops
  induction ops with
  | nil =>
    intro hC hU s cnt hinv id r hget
    exact hinv id r hget
  | cons op rest ih =>
    intro hC hU s cnt hinv id r hget
    rw [List.foldl_cons] at hget
    rw [List.foldl_cons]
    refine ih (fun i rr hm => hC i rr (List.mem_cons_of_mem _ hm))
      (fun i f hm => hU i f (List.mem_cons_of_mem _ hm))
      (crudStep s op) (crudCountStep cnt op) ?_ id r hget
    intro i rr hg
    cases op with
    | create cid res =>
      cases res with
      | some r0 =>
        by_cases hid : cid = i
        · subst hid
          simp only [crudStep] at hg
          rw [storeGet_set_self] at hg
          obtain rfl := Option.some.inj hg
          refine ⟨0, ?_, ?_⟩
          · simp [crudCountStep]
          · rw [hC cid r0 (List.mem_cons_self _ _)]
            rfl
        · simp only [crudStep] at hg
          rw [storeGet_set_ne _ _ _ _ (fun hc => hid hc.symm)] at hg
          obtain ⟨k, hk, hv⟩ := hinv i rr hg
          refine ⟨k, ?_, hv⟩
          simp [crudCountStep, hid, hk]
      | none =>
        simp only [crudStep] at hg
        obtain ⟨k, hk, hv⟩ := hinv i rr hg
        refine ⟨k, ?_, hv⟩
        simp [crudCountStep, hk]
    | update uid f =>
      cases hsg : storeGet s uid with
      | some r1 =>
        simp only [crudStep, hsg] at hg
        by_cases hid : uid = i
        · subst hid
          rw [storeGet_set_self] at hg
          obtain rfl := Option.some.inj hg
          obtain ⟨k, hk, hv⟩ := hinv uid r1 hsg
          refine ⟨k + 1, ?_, ?_⟩
          · simp [crudCountStep, hk]
          · rw [hU uid f (List.mem_cons_self _ _) r1, hv, bumpVersionId_repr]
        · rw [storeGet_set_ne _ _ _ _ (fun hc => hid hc.symm)] at hg
          obtain ⟨k, hk, hv⟩ := hinv i rr hg
          refine ⟨k, ?_, hv⟩
          simp [crudCountStep, hid, hk]
      | none =>
        simp only [crudStep, hsg] at hg
        by_cases hid : uid = i
        · subst hid
          rw [hsg] at hg
          cases hg
        · obtain ⟨k, hk, hv⟩ := hinv i rr hg
          refine ⟨k, ?_, hv⟩
          simp [crudCountStep, hid, hk]
    | delete did =>
      cases hsg : storeGet s did with
      | some r1 =>
        simp only [crudStep, hsg] at hg
        by_cases hid : did = i
        · subst hid
          rw [storeGet_del_self] at hg
          cases hg
        · rw [storeGet_del_ne _ _ _ (fun hc => hid hc.symm)] at hg
          obtain ⟨k, hk, hv⟩ := hinv i rr hg
          refine ⟨k, ?_, hv⟩
          simp [crudCountStep, hid, hk]
      | none =>
        simp only [crudStep, hsg] at hg
        by_cases hid : did = i
        · subst hid
          rw [hsg] at hg
          cases hg
        · obtain ⟨k, hk, hv⟩ := hinv i rr hg
          refine ⟨k, ?_, hv⟩
          simp [crudCountStep, hid, hk]

/-- C8: across all three services, every stored resource's meta.versionId is
the decimal string of one plus the number of successful updates applied
since its creation: creation stamps '1', every successful update (and the
appointment cancel, check-in and complete delegations, which are updates)
bumps it by exactly one and refreshes meta.lastUpdated, and reads and
failed operations leave it alone (they do not touch the store). -/
theorem claim_C8_version_invariant :
    (∀ (ops : List PatientOp) (id : String) (r : PediatricPatient),
      storeGet (runPatientOps ops) id = some r →
      ∃ k, countPatientOps ops id = some k ∧ r.meta.versionId = Nat.repr (k + 1)) ∧
    (∀ (ops : List ObservationOp) (id : String) (r : FHIRObservation),
      storeGet (runObservationOps ops) id = some r →
      ∃ k, countObservationOps ops id = some k ∧ r.meta.versionId = Nat.repr (k + 1)) ∧
    (∀ (ops : List AppointmentOp) (id : String) (r : FHIRAppointment),
      storeGet (runAppointmentOps ops) id = some r →
      ∃ k, countAppointmentOps ops id = some k ∧ r.meta.versionId = Nat.repr (k + 1)) ∧
    (∀ ex u t, (applyPatientUpdate ex u t).meta.lastUpdated = t) ∧
    (∀ ex u t, (applyObservationUpdate ex u t).meta.lastUpdated = t) ∧
    (∀ ex u t, (applyAppointmentUpdate ex u t).meta.lastUpdated = t) ∧
    (∀ appointments id reason t, cancelAppointment appointments id reason t =
      updateAppointment appointments id
        { status := some "cancelled", startDateTime := none, endDateTime := none
          providerId := none, location := none, notes := none
          cancelationReason := some reason } t) ∧
    (∀ appointments id t, checkInAppointment appointments id t =
      updateAppointment appointments id
        { status := some "checked-in", startDateTime := none, endDateTime := none
          providerId := none, location := none, notes := none
          cancelationReason := none } t) ∧
    (∀ appointments id notes t, completeAppointment appointments id notes t =
      updateAppointment appointments id
        { status := some "fulfilled", startDateTime := none, endDateTime := none
          providerId := none, location := none, notes := notes
          cancelationReason := none } t) := by
  refine ⟨?_, ?_, ?_,
    fun ex u t => by rw [applyPatientUpdate_meta],
    fun ex u t => by rw [applyObservationUpdate_meta],
    fun ex u t => by rw [applyAppointmentUpdate_meta],
    fun appointments id reason t => rfl,
    fun appointments id t => rfl,
    fun appointments id notes t => rfl⟩
  · intro ops id r hget
    refine crudRun_foldl_invariant (fun p => p.meta.versionId) (ops.map PatientOp.toCrud)
      ?_ ?_ [] (fun _ => none)
      (fun i rr h => by rw [storeGet_nil] at h; cases h) id r hget
    · intro i rr hm
      rcases List.mem_map.mp hm with ⟨op, hop, heq⟩
      cases op with
      | create req cid now =>
        simp only [PatientOp.toCrud] at heq
        injection heq with h1 h2
        obtain rfl := Option.some.inj h2
        rfl
      | update uid u now => simp [PatientOp.toCrud] at heq
      | delete did => simp [PatientOp.toCrud] at heq
    · intro i f hm rr
      rcases List.mem_map.mp hm with ⟨op, hop, heq⟩
      cases op with
      | create req cid now => simp [PatientOp.toCrud] at heq
      | update uid u now =>
        simp only [PatientOp.toCrud] at heq
        injection heq with h1 h2
        rw [← h2]
        show (applyPatientUpdate rr u now).meta.versionId = _
        rw [applyPatientUpdate_meta]
      | delete did => simp [PatientOp.toCrud] at heq
  · intro ops id r hget
    refine crudRun_foldl_invariant (fun o => o.meta.versionId) (ops.map ObservationOp.toCrud)
      ?_ ?_ [] (fun _ => none)
      (fun i rr h => by rw [storeGet_nil] at h; cases h) id r hget
    · intro i rr hm
      rcases List.mem_map.mp hm with ⟨op, hop, heq⟩
      cases op with
      | create d pOpt cid now =>
        simp only [ObservationOp.toCrud] at heq
        injection heq with h1 h2
        cases pOpt with
        | none => cases h2
        | some pt =>
          obtain rfl := Option.some.inj h2
          rfl
      | update uid u now => simp [ObservationOp.toCrud] at heq
      | delete did => simp [ObservationOp.toCrud] at heq
    · intro i f hm rr
      rcases List.mem_map.mp hm with ⟨op, hop, heq⟩
      cases op with
      | create d pOpt cid now => simp [ObservationOp.toCrud] at heq
      | update uid u now =>
        simp only [ObservationOp.toCrud] at heq
        injection heq with h1 h2
        rw [← h2]
        show (applyObservationUpdate rr u now).meta.versionId = _
        rw [applyObservationUpdate_meta]
      | delete did => simp [ObservationOp.toCrud] at heq
  · intro ops id r hget
    refine crudRun_foldl_invariant (fun a => a.meta.versionId) (ops.map AppointmentOp.toCrud)
      ?_ ?_ [] (fun _ => none)
      (fun i rr h => by rw [storeGet_nil] at h; cases h) id r hget
    · intro i rr hm
      rcases List.mem_map.mp hm with ⟨op, hop, heq⟩
      cases op with
      | create rq pOpt cid now =>
        simp only [AppointmentOp.toCrud] at heq
        injection heq with h1 h2
        cases pOpt with
        | none => cases h2
        | some pt =>
          obtain rfl := Option.some.inj h2
          rfl
      | update uid u now => simp [AppointmentOp.toCrud] at heq
      | cancel uid reason now => simp [AppointmentOp.toCrud] at heq
      | checkin uid now => simp [AppointmentOp.toCrud] at heq
      | complete uid notes now => simp [AppointmentOp.toCrud] at heq
      | delete did => simp [AppointmentOp.toCrud] at heq
    · intro i f hm rr
      rcases List.mem_map.mp hm with ⟨op, hop, heq⟩
      cases op with
      | create rq pOpt cid now => simp [AppointmentOp.toCrud] at heq
      | update uid u now =>
        simp only [AppointmentOp.toCrud] at heq
        injection heq with h1 h2
        rw [← h2]
        show (applyAppointmentUpdate rr u now).meta.versionId = _
        rw [applyAppointmentUpdate_meta]
      | cancel uid reason now =>
        simp only [AppointmentOp.toCrud] at heq
        injection heq with h1 h2
        rw [← h2]
        show (applyAppointmentUpdate rr _ now).meta.versionId = _
        rw [applyAppointmentUpdate_meta]
      | checkin uid now =>
        simp only [AppointmentOp.toCrud] at heq
        injection heq with h1 h2
        rw [← h2]
        show (applyAppointmentUpdate rr _ now).meta.versionId = _
        rw [applyAppointmentUpdate_meta]
      | complete uid notes now =>
        simp only [AppointmentOp.toCrud] at heq
        injection heq with h1 h2
        rw [← h2]
        show (applyAppointmentUpdate rr _ now).meta.versionId = _
        rw [applyAppointmentUpdate_meta]
      | delete did => simp [AppointmentOp.toCrud] at heq

theorem claim_C8_version_invariant_witness :
    demoStoredPatient.meta.versionId =
      Nat.repr (((countPatientOps demoPatientOps demoPatientId).getD 0) + 1) := by
  obtain ⟨k, hk, hv⟩ :=
    claim_C8_version_invariant.1 demoPatientOps demoPatientId demoStoredPatient rfl
  rw [hk, hv]
  rfl

/-! ## Claim C9 -/

theorem storeGet_latestStep_ne (m : Store ObservationResponse) (v : ObservationResponse)
    (c : String) (h : v.code ≠ c) : storeGet (latestStep m v) c = storeGet m c := by
  cases hsg : storeGet m v.code with
  | none =>
    simp only [latestStep, hsg]
    exact storeGet_set_ne _ _ _ _ (fun hc => h hc.symm)
  | some e =>
    simp only [latestStep, hsg]
    split_ifs
    · exact storeGet_set_ne _ _ _ _ (fun hc => h hc.symm)
    · rfl

theorem latestFold_invariant :
    ∀ (l : List ObservationResponse) (m : Store ObservationResponse)
      (proc : List ObservationResponse),
      (∀ c rr, storeGet m c = some rr → rr ∈ proc ∧ rr.code = c ∧
        ∀ q ∈ proc, q.code = c → q.effectiveDateTime ≤ rr.effectiveDateTime) →
      (∀ c, storeGet m c = none → ∀ q ∈ proc, q.code ≠ c) →
      (∀ c rr, storeGet (l.foldl latestStep m) c = some rr → rr ∈ proc ++ l ∧ rr.code = c ∧
        ∀ q ∈ proc ++ l, q.code = c → q.effectiveDateTime ≤ rr.effectiveDateTime) ∧
      (∀ c, storeGet (l.foldl latestStep m) c = none → ∀ q ∈ proc ++ l, q.code ≠ c) := by
  intro l
  induction l with
  | nil =>
    intro m proc h1 h2
    constructor
    · intro c rr hg
      simpa using h1 c rr hg
    · intro c hg
      simpa using h2 c hg
  | cons v rest ih =>
    intro m proc h1 h2
    have hassoc : (proc ++ [v]) ++ rest = proc ++ v :: rest := by
      rw [List.append_assoc]
      rfl
    have inv1 : ∀ c rr, storeGet (latestStep m v) c = some rr → rr ∈ proc ++ [v] ∧
        rr.code = c ∧
        ∀ q ∈ proc ++ [v], q.code = c → q.effectiveDateTime ≤ rr.effectiveDateTime := by
      intro c rr hg
      by_cases hc : v.code = c
      · subst hc
        cases hsg : storeGet m v.code with
        | none =>
          simp only [latestStep, hsg] at hg
          rw [storeGet_set_self] at hg
          obtain rfl := Option.some.inj hg
          refine ⟨List.mem_append.mpr (Or.inr (List.mem_singleton.mpr rfl)), rfl, ?_⟩
          intro q hq hqc
          rcases List.mem_append.mp hq with hq | hq
          · exact absurd hqc (h2 v.code hsg q hq)
          · rw [List.mem_singleton.mp hq]
        | some e =>
          simp only [latestStep, hsg] at hg
          by_cases hlt : e.effectiveDateTime < v.effectiveDateTime
          · rw [if_pos hlt, storeGet_set_self] at hg
            obtain rfl := Option.some.inj hg
            refine ⟨List.mem_append.mpr (Or.inr (List.mem_singleton.mpr rfl)), rfl, ?_⟩
            intro q hq hqc
            rcases List.mem_append.mp hq with hq | hq
            · have hle := (h1 v.code e hsg).2.2 q hq hqc
              omega
            · rw [List.mem_singleton.mp hq]
          · rw [if_neg hlt, hsg] at hg
            obtain rfl := Option.some.inj hg
            obtain ⟨hmem, hcode, hmax⟩ := h1 v.code e hsg
            refine ⟨List.mem_append.mpr (Or.inl hmem), hcode, ?_⟩
            intro q hq hqc
            rcases List.mem_append.mp hq with hq | hq
            · exact hmax q hq hqc
            · rw [List.mem_singleton.mp hq] at hqc ⊢
              omega
      · rw [storeGet_latestStep_ne m v c hc] at hg
        obtain ⟨hmem, hcode, hmax⟩ := h1 c rr hg
        refine ⟨List.mem_append.mpr (Or.inl hmem), hcode, ?_⟩
        intro q hq hqc
        rcases List.mem_append.mp hq with hq | hq
        · exact hmax q hq hqc
        · rw [List.mem_singleton.mp hq] at hqc
          exact absurd hqc hc
    have inv2 : ∀ c, storeGet (latestStep m v) c = none → ∀ q ∈ proc ++ [v], q.code ≠ c := by
      intro c hg q hq
      by_cases hc : v.code = c
      · exfalso
        subst hc
        cases hsg : storeGet m v.code with
        | none =>
          simp only [latestStep, hsg] at hg
          rw [storeGet_set_self] at hg
          cases hg
        | some e =>
          simp only [latestStep, hsg] at hg
          by_cases hlt : e.effectiveDateTime < v.effectiveDateTime
          · rw [if_pos hlt, storeGet_set_self] at hg
            cases hg
          · rw [if_neg hlt, hsg] at hg
            cases hg
      · rw [storeGet_latestStep_ne m v c hc] at hg
        rcases List.mem_append.mp hq with hq | hq
        · exact h2 c hg q hq
        · rw [List.mem_singleton.mp hq]
          exact hc
    have hres := ih (latestStep m v) (proc ++ [v]) inv1 inv2
    constructor
    · intro c rr hg
      rw [List.foldl_cons] at hg
      obtain ⟨hmem, hcode, hmax⟩ := hres.1 c rr hg
      rw [hassoc] at hmem
      refine ⟨hmem, hcode, ?_⟩
      intro q hq hqc
      refine hmax q ?_ hqc
      rw [hassoc]
      exact hq
    · intro c hg q hq
      rw [List.foldl_cons] at hg
      refine hres.2 c hg q ?_
      rw [hassoc]
      exact hq

/-- C9: getLatestVitalSigns yields, per code, exactly one entry, which is a
vital-signs response of the requested patient whose effectiveDateTime is at
least that of every other of the patient's vital-signs responses with the
same code; codes without such a response are absent, and every contributing
response comes from a stored observation of that patient with the
vital-signs category. -/
theorem claim_C9_latest_vitals (observations : ObservationStore) (patientId : String) :
    (∀ c r, storeGet (getLatestVitalSigns observations patientId) c = some r →
      r ∈ getVitalSignsForPatient observations patientId ∧ r.code = c ∧
      ∀ q ∈ getVitalSignsForPatient observations patientId, q.code = c →
        q.effectiveDateTime ≤ r.effectiveDateTime) ∧
    (∀ c, storeGet (getLatestVitalSigns observations patientId) c = none →
      ∀ q ∈ getVitalSignsForPatient observations patientId, q.code ≠ c) ∧
    (∀ r, r ∈ getVitalSignsForPatient observations patientId →
      ∃ o, o ∈ storeValues observations ∧
        o.subject.reference = "Patient/" ++ patientId ∧
        getObservationTypeFromCategory o.category = "vital-signs" ∧
        r = mapToObservationResponse o) := by
  have hres := latestFold_invariant (getVitalSignsForPatient observations patientId) [] []
    (fun c rr hg => by rw [storeGet_nil] at hg; cases hg)
    (fun c hg q hq => absurd hq (List.not_mem_nil q))
  refine ⟨?_, ?_, ?_⟩
  · intro c r hg
    obtain ⟨hmem, hcode, hmax⟩ := hres.1 c r hg
    rw [List.nil_append] at hmem
    refine ⟨hmem, hcode, ?_⟩
    intro q hq hqc
    refine hmax q ?_ hqc
    rw [List.nil_append]
    exact hq
  · intro c hg q hq
    refine hres.2 c hg q ?_
    rw [List.nil_append]
    exact hq
  · intro r hr
    unfold getVitalSignsForPatient getObservationsByPatient at hr
    rcases List.mem_map.mp hr with ⟨o, ho, heq⟩
    rw [List.mem_filter] at ho
    obtain ⟨hov, hcond⟩ := ho
    simp only [Bool.and_eq_true, Bool.or_eq_true, beq_iff_eq] at hcond
    obtain ⟨ha, hb⟩ := hcond
    refine ⟨o, hov, ha, ?_, heq.symm⟩
    rcases hb with hb | hb
    · exact absurd hb (by decide)
    · exact hb

theorem claim_C9_latest_vitals_witness :
    (mapToObservationResponse demoObsB ∈ getVitalSignsForPatient demoObsStore demoPatientId) ∧
    (mapToObservationResponse demoObsB).code = "8867-4" :=
  ⟨((claim_C9_latest_vitals demoObsStore demoPatientId).1 "8867-4"
      (mapToObservationResponse demoObsB) (by decide)).1,
   ((claim_C9_latest_vitals demoObsStore demoPatientId).1 "8867-4"
      (mapToObservationResponse demoObsB) (by decide)).2.1⟩

/-! ## Claim C10 -/

/-- C10: for an identifier absent from the corresponding store, get-by-id,
update and delete of each of the three services throw an AppError whose
message contains 'not found' with status 404, and the system state (all
three stores) is left completely unchanged. -/
theorem claim_C10_not_found (st : SystemState) (id : String)
    (up : PatientUpdateRequest) (uo : ObservationUpdateRequest)
    (ua : AppointmentUpdateRequest) (nowMs : Int) :
    (storeGet st.patients id = none →
      getPatientById st.patients id nowMs =
        .error { message := "Patient not found", statusCode := 404 } ∧
      updatePatient st.patients id up nowMs =
        .error { message := "Patient not found", statusCode := 404 } ∧
      deletePatient st.patients id =
        .error { message := "Patient not found", statusCode := 404 } ∧
      getFHIRPatient st.patients id =
        .error { message := "Patient not found", statusCode := 404 } ∧
      sysUpdatePatient st id up nowMs =
        (st, some { message := "Patient not found", statusCode := 404 }) ∧
      sysDeletePatient st id =
        (st, some { message := "Patient not found", statusCode := 404 })) ∧
    (storeGet st.observations id = none →
      getObservationById st.observations id =
        .error { message := "Observation not found", statusCode := 404 } ∧
      updateObservation st.observations id uo nowMs =
        .error { message := "Observation not found", statusCode := 404 } ∧
      deleteObservation st.observations id =
        .error { message := "Observation not found", statusCode := 404 } ∧
      sysUpdateObservation st id uo nowMs =
        (st, some { message := "Observation not found", statusCode := 404 }) ∧
      sysDeleteObservation st id =
        (st, some { message := "Observation not found", statusCode := 404 })) ∧
    (storeGet st.appointments id = none →
      getAppointmentById st.appointments id =
        .error { message := "Appointment not found", statusCode := 404 } ∧
      updateAppointment st.appointments id ua nowMs =
        .error { message := "Appointment not found", statusCode := 404 } ∧
      deleteAppointment st.appointments id =
        .error { message := "Appointment not found", statusCode := 404 } ∧
      sysUpdateAppointment st id ua nowMs =
        (st, some { message := "Appointment not found", statusCode := 404 }) ∧
      sysDeleteAppointment st id =
        (st, some { message := "Appointment not found", statusCode := 404 })) ∧
    jsIncludes "Patient not found" "not found" = true ∧
    jsIncludes "Observation not found" "not found" = true ∧
    jsIncludes "Appointment not found" "not found" = true := by
  refine ⟨?_, ?_, ?_, by decide, by decide, by decide⟩
  · intro h
    have h1 : getPatientById st.patients id nowMs = .error
        { message := "Patient not found", statusCode := 404 } := by
      unfold getPatientById
      rw [h]
    have h2 : updatePatient st.patients id up nowMs = .error
        { message := "Patient not found", statusCode := 404 } := by
      unfold updatePatient
      rw [h]
    have h3 : deletePatient st.patients id = .error
        { message := "Patient not found", statusCode := 404 } := by
      unfold deletePatient
      rw [h]
    refine ⟨h1, h2, h3, ?_, ?_, ?_⟩
    · unfold getFHIRPatient
      rw [h]
    · unfold sysUpdatePatient
      rw [h2]
    · unfold sysDeletePatient
      rw [h3]
  · intro h
    have h2 : updateObservation st.observations id uo nowMs = .error
        { message := "Observation not found", statusCode := 404 } := by
      unfold updateObservation
      rw [h]
    have h3 : deleteObservation st.observations id = .error
        { message := "Observation not found", statusCode := 404 } := by
      unfold deleteObservation
      rw [h]
    refine ⟨?_, h2, h3, ?_, ?_⟩
    · unfold getObservationById
      rw [h]
    · unfold sysUpdateObservation
      rw [h2]
    · unfold sysDeleteObservation
      rw [h3]
  · intro h
    have h2 : updateAppointment st.appointments id ua nowMs = .error
        { message := "Appointment not found", statusCode := 404 } := by
      unfold updateAppointment
      rw [h]
    have h3 : deleteAppointment st.appointments id = .error
        { message := "Appointment not found", statusCode := 404 } := by
      unfold deleteAppointment
      rw [h]
    refine ⟨?_, h2, h3, ?_, ?_⟩
    · unfold getAppointmentById
      rw [h]
    · unfold sysUpdateAppointment
      rw [h2]
    · unfold sysDeleteAppointment
      rw [h3]

theorem claim_C10_not_found_witness :
    getPatientById [] "missing" 0 =
      .error { message := "Patient not found", statusCode := 404 } ∧
    sysDeleteAppointment { patients := [], observations := [], appointments := [] } "missing" =
      ({ patients := [], observations := [], appointments := [] },
        some { message := "Appointment not found", statusCode := 404 }) :=
  ⟨((claim_C10_not_found { patients := [], observations := [], appointments := [] } "missing"
      { firstName := none, lastName := none, email := none, phone := none, address := none
        emergencyContact := none, careComplexity := none, active := none }
      { value := none, unit := none, status := none, notes := none, interpretation := none }
      { status := none, startDateTime := none, endDateTime := none, providerId := none
        location := none, notes := none, cancelationReason := none } 0).1 rfl).1,
   ((claim_C10_not_found { patients := [], observations := [], appointments := [] } "missing"
      { firstName := none, lastName := none, email := none, phone := none, address := none
        emergencyContact := none, careComplexity := none, active := none }
      { value := none, unit := none, status := none, notes := none, interpretation := none }
      { status := none, startDateTime := none, endDateTime := none, providerId := none
        location := none, notes := none, cancelationReason := none } 0).2.2.1 rfl).2.2.2.2⟩
